import Mathlib

/-!
Verification development for a trace-derived call-frame reconstruction and
heuristic vulnerability detection engine.

The development shallowly embeds the JavaScript sources:
 * the call-frame builder and its validator (`buildCallFrames`,
   `validateFrames`),
 * the trace-based vulnerability detectors (`detectReentrancyFrameAware`,
   `detectReentrancyLegacy`, `detectUncheckedCalls`, `detectOverflow`), and
 * the findings merger (`mergeFindings` and its normalization helpers).

JavaScript strings are modelled as Lean `String`s, JavaScript numbers as
`Nat` (all quantities handled by the embedded code are non-negative and the
paths exercised stay far below 2^53, so `Nat` agrees with IEEE doubles on
them), absent (`undefined`/`null`) values as `Option`, arrays as `List`s,
and insertion-ordered `Map` objects as association lists.  Each definition
mirrors the control flow of the corresponding source function; deviations
forced by the modelling (for example, `undefined` versus `null`) are noted
in comments at the definition concerned.
-/

namespace JsStr

/-- Occurrence count of the pattern `p` in a character list, scanning every
start position from the left (`0` when the pattern never occurs).  Used to
state that a marker occurs exactly once in a title. -/
def countOcc (p : List Char) : List Char → Nat
  | [] => 0
  | c :: rest => (if p.isPrefixOf (c :: rest) then 1 else 0) + countOcc p rest

/-- JavaScript `String.prototype.includes` on character lists: does `p`
occur as a contiguous run somewhere in the list? -/
def containsL (p : List Char) : List Char → Bool
  | [] => p.isPrefixOf ([] : List Char)
  | c :: rest => p.isPrefixOf (c :: rest) || containsL p rest

/-- JavaScript `s.includes(pat)`. -/
def containsStr (s pat : String) : Bool :=
  containsL pat.data s.data

/-- JavaScript `s.replace(pat, "")` for a plain-string pattern: removes the
first occurrence of `pat` only. -/
def removeFirstL (p : List Char) : List Char → List Char
  | [] => []
  | c :: rest =>
    if p.isPrefixOf (c :: rest) then (c :: rest).drop p.length
    else c :: removeFirstL p rest

/-- JavaScript `s.replace("0x", "")`. -/
def remove0x (s : String) : String :=
  String.mk (removeFirstL "0x".data s.data)

/-- JavaScript `s.padStart(n, "0")`. -/
def padStartZeros (s : String) (n : Nat) : String :=
  String.mk (List.replicate (n - s.data.length) '0' ++ s.data)

/-- JavaScript `s.substring(a, b)` (with `a ≤ b`). -/
def substring (s : String) (a b : Nat) : String :=
  String.mk ((s.data.drop a).take (b - a))

/-- JavaScript `s.toLowerCase()` (ASCII; the embedded code only lowercases
hexadecimal digits, addresses and severity words). -/
def lowerStr (s : String) : String :=
  String.mk (s.data.map Char.toLower)

/-- JavaScript `s.slice(-n)`: the last `n` characters. -/
def lastChars (s : String) (n : Nat) : String :=
  String.mk (s.data.drop (s.data.length - n))

/-- Hexadecimal digit value, `none` for a non-digit. -/
def hexDigit? (c : Char) : Option Nat :=
  if '0' ≤ c ∧ c ≤ '9' then some (c.toNat - '0'.toNat)
  else if 'a' ≤ c ∧ c ≤ 'f' then some (c.toNat - 'a'.toNat + 10)
  else if 'A' ≤ c ∧ c ≤ 'F' then some (c.toNat - 'A'.toNat + 10)
  else none

/-- Accumulate leading hexadecimal digits, JavaScript `parseInt` style:
stop at the first non-digit. -/
def hexAcc : List Char → Nat → Nat
  | [], acc => acc
  | c :: rest, acc =>
    match hexDigit? c with
    | some d => hexAcc rest (acc * 16 + d)
    | none => acc

/-- JavaScript `parseInt(s, 16)`: optional `0x`/`0X` marker, then the
longest run of leading hexadecimal digits; `none` models `NaN` (no digit at
all).  Signs and leading whitespace do not occur on the embedded paths and
are not modelled (a sign would make the parsed offset negative, which the
callers reject exactly as they reject `NaN`). -/
def parseHex? (s : String) : Option Nat :=
  let body :=
    if "0x".data.isPrefixOf s.data ∨ "0X".data.isPrefixOf s.data then s.data.drop 2
    else s.data
  match body with
  | [] => none
  | c :: rest =>
    match hexDigit? c with
    | some d => some (hexAcc rest d)
    | none => none

/-- JavaScript `n.toString(16)` for a non-negative number. -/
def natToHex (n : Nat) : String :=
  String.mk (Nat.toDigits 16 n)

/-- JavaScript `String(n).padStart(4, "0")`. -/
def pad4 (n : Nat) : String :=
  padStartZeros (toString n) 4

end JsStr

namespace MergeFindings

open JsStr

/-- Evidence payload of one finding, as consumed by the merger: the merger
reads the optional `frameId`, `contract` and `function` fields when it
builds dedup keys; the remaining fields carry the source-specific payload
produced by the normalizers (`source`/`check`/`impact`/`elements` for
Slither, `source`/`mtitle`/`mseverity`/`mtype` for Mythril). -/
structure MEvid where
  frameId : Option Nat := none
  contract : Option String := none
  function : Option String := none
  source : Option String := none
  check : Option String := none
  impact : Option String := none
  mtitle : Option String := none
  mseverity : Option String := none
  mtype : Option String := none
  elements : List String := []
deriving DecidableEq

/-- A finding's `evidence` field is either a single payload object or an
array of payloads (the merger promotes the former to the latter when it
merges). -/
inductive EvBox where
  | scalar (e : MEvid)
  | arr (l : List MEvid)
deriving DecidableEq

/-- Finding record handled by the merger: `{id, rule, severity, title,
description, evidence, recommendation, tags}`.  A missing `evidence` field
is `none`. -/
structure MFinding where
  id : String := ""
  rule : String
  severity : String
  title : String
  description : String := ""
  evidence : Option EvBox := none
  recommendation : String := ""
  tags : List String := []
deriving DecidableEq

/-- One external Slither result entry: `{check, impact, description,
elements}` (absent fields are `none`). -/
structure SlitherResult where
  check : Option String := none
  impact : Option String := none
  description : Option String := none
  elements : List String := []
deriving DecidableEq

/-- Parsed `slither.json` shape `{results: [...]}`. -/
structure SlitherData where
  results : List SlitherResult
deriving DecidableEq

/-- One external Mythril issue entry: `{title, severity, description,
type}`. -/
structure MythrilIssue where
  title : Option String := none
  severity : Option String := none
  description : Option String := none
  mtype : Option String := none
deriving DecidableEq

/-- Parsed `mythril.json` shape `{issues: [...]}`. -/
structure MythrilData where
  issues : List MythrilIssue
deriving DecidableEq

/-- Source `mapSlitherCheckToRule` (merge_findings.js): keyword matching on
the lowercased check name. -/
def mapSlitherCheckToRule (check : String) : String :=
  let checkLower := lowerStr check
  if containsStr checkLower "reentrancy" || containsStr checkLower "reentrancy-benign" ||
      containsStr checkLower "reentrancy-events" then "ReentrancyHeuristicFrame"
  else if containsStr checkLower "arithmetic" || containsStr checkLower "overflow" ||
      containsStr checkLower "underflow" then "ArithmeticOverflowUnderflow"
  else if containsStr checkLower "delegatecall" then "DelegatecallTargetHeuristic"
  else if containsStr checkLower "tx-origin" || containsStr checkLower "tx.origin" then
    "TxOriginAuthHeuristic"
  else if containsStr checkLower "unchecked-call" || containsStr checkLower "unchecked-send" then
    "UncheckedExternalCall"
  else if containsStr checkLower "access-control" || containsStr checkLower "permission" then
    "AccessControlIssue"
  else check

/-- Source `mapMythrilTitleToRule` (merge_findings.js). -/
def mapMythrilTitleToRule (title : String) : String :=
  let titleLower := lowerStr title
  if containsStr titleLower "reentrancy" then "ReentrancyHeuristicFrame"
  else if containsStr titleLower "arithmetic" || containsStr titleLower "overflow" ||
      containsStr titleLower "underflow" then "ArithmeticOverflowUnderflow"
  else if containsStr titleLower "delegatecall" then "DelegatecallTargetHeuristic"
  else if containsStr titleLower "tx-origin" || containsStr titleLower "tx.origin" ||
      containsStr titleLower "tx_origin" then "TxOriginAuthHeuristic"
  else if containsStr titleLower "call" || containsStr titleLower "return" then
    "UncheckedExternalCall"
  else if containsStr titleLower "access" || containsStr titleLower "permission" then
    "AccessControlIssue"
  else title

/-- Source `mapSlitherSeverity` (merge_findings.js): lowercases the impact
(`(impact || '').toLowerCase()`), then looks it up in the severity table,
defaulting to `"medium"`. -/
def mapSlitherSeverity (impact : Option String) : String :=
  let k := lowerStr (impact.getD "")
  if k = "high" then "high"
  else if k = "medium" then "medium"
  else if k = "low" then "low"
  else if k = "informational" then "low"
  else if k = "optimization" then "low"
  else "medium"

/-- Source `mapMythrilSeverity` (merge_findings.js): exact (case-sensitive)
lookup of the severity string, defaulting to `"medium"` (an absent severity
indexes the table with `undefined`, which also defaults). -/
def mapMythrilSeverity (severity : Option String) : String :=
  match severity with
  | some "High" => "high"
  | some "Medium" => "medium"
  | some "Low" => "low"
  | some "Informational" => "low"
  | _ => "medium"

/-- Source `getSlitherRecommendation` (merge_findings.js). -/
def getSlitherRecommendation (check : String) : String :=
  let checkLower := lowerStr check
  if containsStr checkLower "reentrancy" then
    "Use checks-effects-interactions pattern. Consider reentrancy guards (OpenZeppelin)."
  else if containsStr checkLower "arithmetic" then
    "Upgrade to Solidity >=0.8 for built-in overflow checks. Use SafeMath for earlier versions."
  else if containsStr checkLower "delegatecall" then
    "Ensure delegatecall target is whitelisted and audited. Avoid dynamic targets."
  else if containsStr checkLower "tx-origin" then
    "Never use tx.origin for access control. Use msg.sender instead."
  else "Review and apply appropriate mitigation measures."

/-- Source `getMythrilRecommendation` (merge_findings.js). -/
def getMythrilRecommendation (title : String) : String :=
  let titleLower := lowerStr title
  if containsStr titleLower "reentrancy" then
    "Use checks-effects-interactions pattern. Consider reentrancy guards (OpenZeppelin)."
  else if containsStr titleLower "arithmetic" then
    "Upgrade to Solidity >=0.8 for built-in overflow checks. Use SafeMath for earlier versions."
  else if containsStr titleLower "delegatecall" then
    "Ensure delegatecall target is whitelisted and audited. Avoid dynamic targets."
  else if containsStr titleLower "tx-origin" then
    "Never use tx.origin for access control. Use msg.sender instead."
  else "Review and apply appropriate mitigation measures."

/-- Source `normalizeSlitherFindings` (merge_findings.js): entries without
a truthy `check` are skipped but still consume their index. -/
def normalizeSlitherFindings (slitherData : Option SlitherData) : List MFinding :=
  match slitherData with
  | none => []
  | some data =>
    data.results.enum.filterMap fun p =>
      match p.2.check with
      | none => none
      | some c =>
        if c = "" then none
        else some
          { id := "STATIC-SLITHER-" ++ pad4 (p.1 + 1)
            rule := mapSlitherCheckToRule c
            severity := mapSlitherSeverity p.2.impact
            title := c
            description :=
              match p.2.description with
              | some d => if d = "" then "Slither detected: " ++ c else d
              | none => "Slither detected: " ++ c
            evidence := some (.scalar
              { source := some "Slither", check := some c, impact := p.2.impact
                elements := p.2.elements })
            recommendation := getSlitherRecommendation c
            tags := ["static", "slither", mapSlitherCheckToRule c] }

/-- Source `normalizeMythrilFindings` (merge_findings.js). -/
def normalizeMythrilFindings (mythrilData : Option MythrilData) : List MFinding :=
  match mythrilData with
  | none => []
  | some data =>
    data.issues.enum.filterMap fun p =>
      match p.2.title with
      | none => none
      | some t =>
        if t = "" then none
        else some
          { id := "STATIC-MYTHRIL-" ++ pad4 (p.1 + 1)
            rule := mapMythrilTitleToRule t
            severity := mapMythrilSeverity p.2.severity
            title := t
            description :=
              match p.2.description with
              | some d => if d = "" then "Mythril detected: " ++ t else d
              | none => "Mythril detected: " ++ t
            evidence := some (.scalar
              { source := some "Mythril", mtitle := some t, mseverity := p.2.severity
                mtype := some (match p.2.mtype with
                  | some ty => if ty = "" then "Informational" else ty
                  | none => "Informational") })
            recommendation := getMythrilRecommendation t
            tags := ["static", "mythril", mapMythrilTitleToRule t] }

/-- Source `extractFindingContext` (merge_findings.js): best-effort context
string from the evidence (`frame:` / `contract:` / `function:` pieces, only
read off a scalar evidence object), falling back to the rule name.  A
`frameId` stored as JavaScript `null` is not representable here and is
treated as absent; the embedded detectors never produce such a finding. -/
def extractFindingContext (f : MFinding) : String :=
  let ctx :=
    match f.evidence with
    | some (.scalar e) =>
      let c1 :=
        match e.frameId with
        | some n => "frame:" ++ toString n
        | none => ""
      let c2 :=
        match e.contract with
        | some c => if c = "" then c1 else c1 ++ "contract:" ++ c
        | none => c1
      match e.function with
      | some fn => if fn = "" then c2 else c2 ++ "function:" ++ fn
      | none => c2
    | _ => ""
  if ctx = "" ∧ f.rule ≠ "" then f.rule else ctx

/-- Dedup key used by `mergeFindings`: `` `${finding.rule}:${context}` ``. -/
def findingKey (f : MFinding) : String :=
  f.rule ++ ":" ++ extractFindingContext f

/-- Source `severityRank` (merge_findings.js). -/
def severityRank (severity : String) : Nat :=
  if severity = "critical" then 5
  else if severity = "high" then 4
  else if severity = "medium" then 3
  else if severity = "low" then 2
  else if severity = "informational" then 1
  else 0

/-- JavaScript `Set` insertion: append when absent, preserving insertion
order. -/
def setAdd (acc : List String) (t : String) : List String :=
  if t ∈ acc then acc else acc ++ [t]

/-- The key-collision branch of `mergeFindings` (merge_findings.js lines
306-338): raise severity by rank, promote scalar evidence to an array and
append the incoming evidence, union the tag sets, and prepend the
`[MERGED]` title marker unless it is already present. -/
def mergeCollision (existing incoming : MFinding) : MFinding :=
  let severity :=
    if severityRank existing.severity < severityRank incoming.severity then incoming.severity
    else existing.severity
  let evBase : List MEvid :=
    match existing.evidence with
    | none => []
    | some (.scalar e) => [e]
    | some (.arr l) => l
  let evAll : List MEvid :=
    match incoming.evidence with
    | none => evBase
    | some (.scalar e) => evBase ++ [e]
    | some (.arr l) => evBase ++ l
  let tags := incoming.tags.foldl setAdd (existing.tags.foldl setAdd [])
  let title :=
    if containsStr existing.title "[MERGED]" then existing.title
    else "[MERGED] " ++ existing.title
  { existing with
    severity := severity
    evidence := some (.arr evAll)
    tags := tags
    title := title }

/-- Dynamic-findings pass of `mergeFindings`: insert under the dedup key
only when the key is not yet present (a later dynamic finding with an
already-seen key is dropped).  The state is the `findingMap` as an
insertion-ordered association list; the output list of the source is its
value column. -/
def insertDynamic (st : List (String × MFinding)) (f : MFinding) : List (String × MFinding) :=
  if st.any (fun e => decide (e.1 = findingKey f)) then st
  else st ++ [(findingKey f, f)]

/-- Static-findings pass of `mergeFindings`: on a key collision the stored
finding is updated in place via `mergeCollision` (the map holds at most one
entry per key, so the positional update touches exactly that entry),
otherwise the finding is appended. -/
def insertStatic (st : List (String × MFinding)) (f : MFinding) : List (String × MFinding) :=
  let key := findingKey f
  if st.any (fun e => decide (e.1 = key)) then
    st.map (fun e => if e.1 = key then (e.1, mergeCollision e.2 f) else e)
  else st ++ [(key, f)]

/-- State after the dynamic pass of `mergeFindings`. -/
def dynamicPhase (dynamicFindings : List MFinding) : List (String × MFinding) :=
  dynamicFindings.foldl insertDynamic []

/-- Source `mergeFindings` (merge_findings.js): dynamic findings first,
then the normalized Slither findings followed by the normalized Mythril
findings; the output is the map's value column in insertion order (the
source's `allFindings` array aliases the map entries, so in-place merges
are reflected there). -/
def mergeFindings (dynamicFindings : List MFinding) (slitherData : Option SlitherData)
    (mythrilData : Option MythrilData) : List MFinding :=
  let staticFindings := normalizeSlitherFindings slitherData ++ normalizeMythrilFindings mythrilData
  (staticFindings.foldl insertStatic (dynamicPhase dynamicFindings)).map Prod.snd

end MergeFindings

namespace VulnDetect

open JsStr

/-- One row of the parsed trace (`parsed_trace.json` `rows` array): per-step
opcode record produced by the trace parser. -/
structure Row where
  step : Nat
  pc : Nat := 0
  op : String
  gasCost : Nat := 0
  depth : Nat := 0
  isJump : Bool := false
  isCall : Bool := false
  isStorage : Bool := false
deriving DecidableEq

/-- One decoded SSTORE (`parsed_trace.json` `sstores` array). -/
structure SStoreEntry where
  step : Nat
  slot : String
  value : String
deriving DecidableEq

/-- Call frame as consumed by the detector (`parsed_trace.json`
`callFrames`): the detector reads `id`, `type`, `to` and the `children`
list (whose elements it only forwards and tests for emptiness, so they are
carried here as child ids). -/
structure VFrame where
  id : Nat
  type : String := ""
  toAddr : Option String := none
  children : List Nat := []
deriving DecidableEq

/-- One raw `structLogs` entry of the optional `--trace` input, reduced to
the fields the detector reads. -/
structure TStructLog where
  stack : List String := []
  memory : List String := []
deriving DecidableEq

/-- The optional raw trace (`trace.result.structLogs`). -/
structure TraceData where
  structLogs : List TStructLog
deriving DecidableEq

/-- The parsed-trace input of the detector.  `stepToFrameId` entries model
the stored values (`some` an id, `none` a stored `null`); indexing past the
array's end is JavaScript `undefined` and is modelled by a failed lookup. -/
structure ParsedData where
  callFrames : List VFrame := []
  stepToFrameId : List (Option Nat) := []
  rows : List Row := []
  sstores : List SStoreEntry := []
deriving DecidableEq

/-- The nine mainnet precompile addresses hard-coded in the source. -/
def PRECOMPILES : List String :=
  [ "0x0000000000000000000000000000000000000001"
  , "0x0000000000000000000000000000000000000002"
  , "0x0000000000000000000000000000000000000003"
  , "0x0000000000000000000000000000000000000004"
  , "0x0000000000000000000000000000000000000005"
  , "0x0000000000000000000000000000000000000006"
  , "0x0000000000000000000000000000000000000007"
  , "0x0000000000000000000000000000000000000008"
  , "0x0000000000000000000000000000000000000009" ]

/-- Source `isPrecompile` (vuln_detect.js): falsy addresses are rejected,
otherwise membership of the lowercased address in the precompile set. -/
def isPrecompile (addr : Option String) : Bool :=
  match addr with
  | none => false
  | some a => if a = "" then false else PRECOMPILES.contains (lowerStr a)

/-- Source `isSelfCall` (vuln_detect.js). -/
def isSelfCall (addr contractAddr : Option String) : Bool :=
  match addr, contractAddr with
  | some a, some c =>
    if a = "" ∨ c = "" then false else decide (lowerStr a = lowerStr c)
  | _, _ => false

/-- Call-site record collected into `frameCallsMap`. -/
structure CallInfo where
  step : Nat
  op : String
  toAddr : Option String := none
  value : Option String := none
  selector : Option String := none
  pc : Nat := 0
deriving DecidableEq

/-- Storage-write record collected into `frameStoresMap`. -/
structure StoreInfo where
  step : Nat
  slot : String
  value : String
deriving DecidableEq

/-- Arithmetic-instruction record used by the overflow detector. -/
structure ArithInfo where
  step : Nat
  op : String
  pc : Nat
deriving DecidableEq

/-- Panic decode result: the selector, and the reason code (`none` models
the `NaN` produced when the code field has no leading hexadecimal digit). -/
structure PanicInfo where
  selector : String
  code : Option Nat
deriving DecidableEq

/-- Rule-specific evidence payloads of the detector's findings, one
constructor per `addFinding` call site. -/
inductive VEvidence where
  | r1 (frameId : Nat) (frameType : String) (callStep : Nat) (callOp : String)
      (callTo callValue callSelector : Option String) (nestedFrames : List Nat)
      (sstores : List StoreInfo)
  | r2 (frameId : Nat) (frameType : String) (callStep : Nat) (callOp : String)
      (callTo callValue : Option String) (slot : String) (count : Nat) (steps : List Nat)
      (sstores : List StoreInfo)
  | legacy (callStep : Nat) (callOp : String) (callDepth : Nat) (sstoreStep : Nat)
      (sstoreDepth : Nat) (stepsBetween : Nat)
  | unchecked (callStep : Nat) (callOp : String) (pc : Nat) (checkedWithinSteps : Nat)
      (foundCheck : Bool)
  | panic (revertStep : Nat) (panicSelector : String) (panicCode : Option Nat)
      (frameId : Option (Option Nat)) (preceding : List ArithInfo)
  | heuristic (arithStep : Nat) (arithOp : String) (failureStep : Nat) (failureOp : String)
      (stepsBetween : Nat)
deriving DecidableEq

/-- Finding as pushed by `addFinding`, without the sequential id (the
source assigns `VUL-<n>` ids in push order across a whole run; see
`numberFindings`). -/
structure VFinding where
  rule : String
  severity : String
  title : String
  description : String
  evidence : VEvidence
  recommendation : String
  tags : List String
deriving DecidableEq

/-- Source `getRecommendation` (vuln_detect.js). -/
def getRecommendation (rule : String) : String :=
  if rule = "ReentrancyHeuristicFrame" ∨ rule = "reentrancy" then
    "Use checks-effects-interactions pattern. Emit events before external calls. Consider reentrancy guards (OpenZeppelin)."
  else if rule = "unchecked_call" then
    "Always check return value of external calls. Use require() or handle failure cases explicitly."
  else if rule = "TxOriginAuthHeuristic" then
    "Never use tx.origin for access control. Use msg.sender instead. If tx.origin is necessary, validate against authenticated context."
  else if rule = "DelegatecallTargetHeuristic" then
    "Avoid delegatecall if possible. If necessary, ensure target address is a constant that is whitelisted and audited. Use access control patterns to restrict who can call delegatecall functions."
  else if rule = "ArithmeticOverflowUnderflow" then
    "Upgrade to Solidity >=0.8 for built-in overflow checks. For earlier versions, use SafeMath library. Ensure all arithmetic operations are properly bounded and validated."
  else if rule = "tx_origin" then
    "Never use tx.origin for access control. Use msg.sender instead."
  else if rule = "delegatecall" then
    "Avoid delegatecall or ensure target is whitelisted and safe. Document the intended behavior."
  else if rule = "overflow" ∨ rule = "underflow" then
    "Upgrade to Solidity >=0.8 for built-in overflow checks. Or use SafeMath library."
  else "Review this vulnerability and apply appropriate mitigations."

/-- Sequential `VUL-<n>` id assignment performed by `addFinding` over a
run's accumulated findings. -/
def numberFindings (l : List VFinding) : List (String × VFinding) :=
  l.enum.map fun p => ("VUL-" ++ pad4 (p.1 + 1), p.2)

/-- Insertion-ordered map from frame key to collected records; the key type
is the stored `stepToFrameId` value (a frame id, or `none` for a stored
`null`). -/
abbrev FrameMap (α : Type) := List (Option Nat × List α)

/-- Append a record under a key, creating the entry on first use
(JavaScript `Map` semantics: at most one entry per key, insertion order
preserved). -/
def mapAppend {α : Type} (m : FrameMap α) (k : Option Nat) (v : α) : FrameMap α :=
  if m.any (fun e => decide (e.1 = k)) then
    m.map (fun e => if e.1 = k then (e.1, e.2 ++ [v]) else e)
  else m ++ [(k, [v])]

/-- Lookup with the `map.get(k) || []` default. -/
def mapGet {α : Type} (m : FrameMap α) (k : Option Nat) : List α :=
  match m.find? (fun e => decide (e.1 = k)) with
  | some e => e.2
  | none => []

/-- The four external-call opcodes tracked by the detector. -/
def CALL_OPS : List String := ["CALL", "DELEGATECALL", "STATICCALL", "CALLCODE"]

/-- Best-effort extraction of `to`/`value`/`selector` for a call row from
the raw trace.  The source indexes `structLogs[idx - 1]` and its target
expression `log.stack[log.stack.length - row.op === 'CALL' ? 6 : 5]`
associates as `(log.stack.length - row.op) === 'CALL'`, which is never
true, so the ternary always yields the absolute stack index 5; `value`
reads `stack[stack.length - 5]` (JavaScript yields `undefined` for a
negative index), and `|| null` turns empty strings into `null`. -/
def callTargetFields (trace : Option TraceData) (idx : Nat) (row : Row) :
    Option String × Option String × Option String :=
  match trace with
  | none => (none, none, none)
  | some t =>
    match (if idx = 0 then none else t.structLogs[idx - 1]?) with
    | none => (none, none, none)
    | some log =>
      if log.stack.length = 0 then (none, none, none)
      else
        let toAddr :=
          match log.stack[5]? with
          | some s => if s = "" then none else some s
          | none => none
        let value :=
          if row.op = "CALL" then
            if log.stack.length < 5 then none
            else match log.stack[log.stack.length - 5]? with
              | some s => if s = "" then none else some s
              | none => none
          else none
        let selector :=
          match log.stack[log.stack.length - 1]? with
          | some s => if s = "" then none else some s
          | none => none
        (toAddr, value, selector)

/-- The per-frame call and store maps built by the first scan of
`detectReentrancyFrameAware`. -/
structure FrameMaps where
  calls : FrameMap CallInfo
  stores : FrameMap StoreInfo
deriving DecidableEq

/-- One iteration of the row scan of `detectReentrancyFrameAware`: rows
whose index has no `stepToFrameId` entry are skipped; call rows are
recorded in `calls`; SSTORE rows with a matching `sstores` entry are
recorded in `stores`. -/
def scanRow (parsed : ParsedData) (trace : Option TraceData) (acc : FrameMaps) (p : Nat × Row) :
    FrameMaps :=
  match parsed.stepToFrameId[p.1]? with
  | none => acc
  | some frameId =>
    let acc1 :=
      if p.2.op ∈ CALL_OPS then
        let f := callTargetFields trace p.1 p.2
        let info : CallInfo :=
          { step := p.2.step, op := p.2.op, toAddr := f.1, value := f.2.1,
            selector := f.2.2, pc := p.2.pc }
        { acc with calls := mapAppend acc.calls frameId info }
      else acc
    if p.2.isStorage ∧ p.2.op = "SSTORE" then
      match parsed.sstores.find? (fun s => decide (s.step = p.2.step)) with
      | some s =>
        let info : StoreInfo := { step := p.2.step, slot := s.slot, value := s.value }
        { acc1 with stores := mapAppend acc1.stores frameId info }
      | none => acc1
    else acc1

/-- The full row scan building `frameCallsMap` and `frameStoresMap`.  (The
source also builds a `frameNestedMap`, which no later code reads; it is
omitted here.) -/
def buildFrameMaps (parsed : ParsedData) (trace : Option TraceData) : FrameMaps :=
  parsed.rows.enum.foldl (scanRow parsed trace) { calls := [], stores := [] }

/-- The finding pushed by rule R1 of `detectReentrancyFrameAware`. -/
def mkR1Finding (frame : VFrame) (c : CallInfo) (storesAfterCall : List StoreInfo) : VFinding :=
  { rule := "ReentrancyHeuristicFrame"
    severity := "high"
    title := "Potential Reentrancy: External Call Before State Update (Frame-Aware)"
    description :=
      "Frame " ++ toString frame.id ++ " (" ++ frame.type ++ ") contains external " ++ c.op ++
      " at step " ++ toString c.step ++ " to " ++
      (match c.toAddr with | some t => if t = "" then "unknown" else t | none => "unknown") ++
      ", followed by state update(s) at steps " ++
      String.intercalate ", " (storesAfterCall.map (fun s => toString s.step)) ++
      ". Attacker callback in nested frame(s) may exploit state inconsistency."
    evidence := .r1 frame.id frame.type c.step c.op c.toAddr c.value c.selector frame.children
      storesAfterCall
    recommendation := getRecommendation "ReentrancyHeuristicFrame"
    tags := ["reentrancy", "frame-aware"] }

/-- Rule R1 of `detectReentrancyFrameAware` for one frame: an external call
followed by same-frame storage writes, in a frame with nested children or
with a DELEGATECALL (always treated as external and always risky). -/
def r1Frame (maps : FrameMaps) (frame : VFrame) : List VFinding :=
  let calls := mapGet maps.calls (some frame.id)
  let stores := mapGet maps.stores (some frame.id)
  if calls = [] ∨ stores = [] then []
  else
    calls.filterMap fun c =>
      let storesAfterCall := stores.filter (fun s => decide (c.step < s.step))
      if storesAfterCall = [] then none
      else
        let isExternalCall := !(isPrecompile c.toAddr || isSelfCall c.toAddr frame.toAddr)
        if isExternalCall = false ∧ c.op ≠ "DELEGATECALL" then none
        else if frame.children ≠ [] ∨ c.op = "DELEGATECALL" then
          some (mkR1Finding frame c storesAfterCall)
        else none

/-- The per-slot write counts over the post-call stores (JavaScript `Map`
increment, insertion order preserved). -/
def slotCounts (stores : List StoreInfo) : List (String × Nat) :=
  stores.foldl (fun acc s =>
    if acc.any (fun e => decide (e.1 = s.slot)) then
      acc.map (fun e => if e.1 = s.slot then (e.1, e.2 + 1) else e)
    else acc ++ [(s.slot, 1)]) []

/-- The finding pushed by rule R2 of `detectReentrancyFrameAware`. -/
def mkR2Finding (frame : VFrame) (c : CallInfo) (slot : String) (count : Nat)
    (slotsWithMultipleWrites : List StoreInfo) : VFinding :=
  { rule := "ReentrancyHeuristicFrame"
    severity := "medium"
    title := "Potential Reentrancy: Multiple State Updates After External Call"
    description :=
      "Frame " ++ toString frame.id ++ " writes to slot " ++ slot ++ " " ++ toString count ++
      " times (steps " ++
      String.intercalate ", " (slotsWithMultipleWrites.map (fun s => toString s.step)) ++
      ") after external " ++ c.op ++ " at step " ++ toString c.step ++
      ". Multiple updates to same state in single frame after external interaction indicates race condition risk."
    evidence := .r2 frame.id frame.type c.step c.op c.toAddr c.value slot count
      (slotsWithMultipleWrites.map (fun s => s.step)) slotsWithMultipleWrites
    recommendation := getRecommendation "ReentrancyHeuristicFrame"
    tags := ["reentrancy", "frame-aware", "state-race"] }

/-- Rule R2 of `detectReentrancyFrameAware` for one frame: slots written
more than once after an external call yield one medium finding per slot. -/
def r2Frame (maps : FrameMaps) (frame : VFrame) : List VFinding :=
  let calls := mapGet maps.calls (some frame.id)
  let stores := mapGet maps.stores (some frame.id)
  if calls = [] ∨ stores.length < 2 then []
  else
    calls.flatMap fun c =>
      let storesAfterCall := stores.filter (fun s => decide (c.step < s.step))
      let counts := slotCounts storesAfterCall
      counts.filterMap fun q =>
        if q.2 ≤ 1 then none
        else
          let slotsWithMultipleWrites := storesAfterCall.filter (fun s => decide (s.slot = q.1))
          let isExternalCall := !(isPrecompile c.toAddr || isSelfCall c.toAddr frame.toAddr)
          if isExternalCall = false ∧ c.op ≠ "DELEGATECALL" then none
          else some (mkR2Finding frame c q.1 q.2 slotsWithMultipleWrites)

/-- Entry of the legacy detector's `callDepths` list. -/
structure DepthEntry where
  step : Nat
  op : String
  depth : Nat
deriving DecidableEq

/-- The `callDepths` list of `detectReentrancyLegacy`: one entry per call
row and one per storage row, in row order (`step` records the row index). -/
def legacyEntries (rows : List Row) : List DepthEntry :=
  rows.enum.flatMap fun p =>
    (if p.2.isCall then [({ step := p.1, op := p.2.op, depth := p.2.depth } : DepthEntry)]
     else []) ++
    (if p.2.isStorage then [({ step := p.1, op := "SSTORE", depth := p.2.depth } : DepthEntry)]
     else [])

/-- Fallback window constant of the legacy detector. -/
def MAX_WINDOW_STEPS : Nat := 200

/-- The single finding pushed by `detectReentrancyLegacy`. -/
def mkLegacyFinding (c n : DepthEntry) : VFinding :=
  { rule := "reentrancy"
    severity := "high"
    title := "Potential Reentrancy: External Call Before State Update (legacy)"
    description :=
      "External call at step " ++ toString c.step ++ " (" ++ c.op ++
      ") followed by state update (SSTORE) at step " ++ toString n.step ++
      ". Attacker callback may exploit state inconsistency. (No frame data available; using legacy detection.)"
    evidence := .legacy c.step c.op c.depth n.step n.depth (n.step - c.step)
    recommendation := getRecommendation "reentrancy"
    tags := ["reentrancy", "legacy"] }

/-- The adjacent-pair scan of `detectReentrancyLegacy`: the first adjacent
pair (call-like entry, SSTORE entry) at non-increasing depth within the
window yields one finding and stops. -/
def legacyScan : List DepthEntry → List VFinding
  | c :: n :: rest =>
    if containsStr c.op "CALL" ∧ n.op = "SSTORE" ∧ n.depth ≤ c.depth ∧
        n.step - c.step < MAX_WINDOW_STEPS then
      [mkLegacyFinding c n]
    else legacyScan (n :: rest)
  | _ => []

/-- Source `detectReentrancyLegacy` (vuln_detect.js).  (The source also
computes a `maxDepth` that no later code reads.) -/
def detectReentrancyLegacy (rows : List Row) : List VFinding :=
  let callDepths := legacyEntries rows
  if callDepths.length < 2 then [] else legacyScan callDepths

/-- Source `detectReentrancyFrameAware` (vuln_detect.js): falls back to the
legacy detector when frame data is absent; otherwise runs rule R1 over all
frames, then rule R2 over all frames (findings are pushed in that order). -/
def detectReentrancyFrameAware (parsed : ParsedData) (trace : Option TraceData) :
    List VFinding :=
  if parsed.callFrames = [] ∨ parsed.stepToFrameId = [] then
    detectReentrancyLegacy parsed.rows
  else
    let maps := buildFrameMaps parsed trace
    parsed.callFrames.flatMap (r1Frame maps) ++ parsed.callFrames.flatMap (r2Frame maps)

end VulnDetect

namespace VulnDetect

open JsStr

/-- The validation-class opcodes sought by the unchecked-call lookahead. -/
def isCheckOp (op : String) : Bool :=
  op ∈ ["ISZERO", "REVERT", "JUMPI", "REQUIRE"]

/-- The finding pushed by `detectUncheckedCalls`. -/
def mkUncheckedFinding (row : Row) : VFinding :=
  { rule := "unchecked_call"
    severity := "medium"
    title := "Unchecked External Call: " ++ row.op
    description :=
      "External call (" ++ row.op ++ ") at step " ++ toString row.step ++
      " has no apparent return value check in the following 20 steps. Call may fail silently."
    evidence := .unchecked row.step row.op row.pc 20 false
    recommendation := getRecommendation "unchecked_call"
    tags := ["unchecked-call"] }

/-- Source `detectUncheckedCalls` (vuln_detect.js): for each call row at
index `idx` the loop `for (i = idx + 1; i < Math.min(idx + 20, len); i++)`
scans rows `idx+1 .. idx+19` for a validation opcode; absence yields one
medium finding.  (The source spells the call-op list in the order CALL,
STATICCALL, DELEGATECALL, CALLCODE; membership is identical to
`CALL_OPS`.) -/
def detectUncheckedCalls (rows : List Row) : List VFinding :=
  rows.enum.filterMap fun p =>
    if p.2.op ∈ CALL_OPS then
      let foundCheck :=
        (List.range' (p.1 + 1) (min (p.1 + 20) rows.length - (p.1 + 1))).any fun i =>
          match rows[i]? with
          | some r => isCheckOp r.op
          | none => false
      if foundCheck then none else some (mkUncheckedFinding p.2)
    else none

/-- Memory words flattened to a byte list, each byte a two-character hex
string: each word is stripped of a leading `0x`, left-padded to 64
characters, and read as its first 32 byte pairs. -/
def flattenMemory (memoryWords : List String) : List String :=
  memoryWords.flatMap fun word =>
    let hex := padStartZeros (remove0x word) 64
    (List.range 32).map fun j => substring hex (j * 2) (j * 2 + 2)

/-- Source `extractMemoryRange` (vuln_detect.js): bytes
`[memOffset, memOffset + memSize)` of the flattened memory, truncated at
the available length; empty results are `null`. -/
def extractMemoryRange (memOffset memSize : Nat) (memoryWords : List String) : Option String :=
  if memoryWords = [] ∨ memSize = 0 then none
  else
    let memoryBytes := flattenMemory memoryWords
    let result := String.join ((memoryBytes.drop memOffset).take memSize)
    if result = "" then none else some ("0x" ++ result)

/-- Source `decodePanicRevert` (vuln_detect.js): a `Panic(uint256)` revert
payload is the selector `0x4e487b71` followed by a 32-byte code. -/
def decodePanicRevert (revertData : String) : Option PanicInfo :=
  if revertData.data.length < 10 then none
  else
    let selector := lowerStr (substring revertData 0 10)
    if selector ≠ "0x4e487b71" then none
    else if revertData.data.length < 10 + 64 then none
    else
      let codeHex := substring revertData 10 (10 + 64)
      some { selector := selector, code := parseHex? codeHex }

/-- The arithmetic opcodes tracked by the overflow detector. -/
def ARITH_OPS : List String := ["ADD", "SUB", "MUL", "DIV"]

/-- Source `findPrecedingArithmetic` (vuln_detect.js): same-frame
arithmetic rows in the `lookBack` window before `revertStep`. -/
def findPrecedingArithmetic (rows : List Row) (stepToFrameId : List (Option Nat))
    (revertStep : Nat) (frameId : Option (Option Nat)) (lookBack : Nat) : List ArithInfo :=
  let startStep := revertStep - lookBack
  (List.range' startStep (revertStep - startStep)).filterMap fun i =>
    match rows[i]? with
    | none => none
    | some row =>
      if stepToFrameId[i]? ≠ frameId then none
      else if row.op ∈ ARITH_OPS then
        some { step := row.step, op := row.op, pc := row.pc }
      else none

/-- The high-confidence finding pushed on a decoded `Panic(0x11)`. -/
def mkPanicFinding (row : Row) (frameId : Option (Option Nat)) (pi : PanicInfo)
    (precedingOps : List ArithInfo) : VFinding :=
  { rule := "ArithmeticOverflowUnderflow"
    severity := "high"
    title := "Arithmetic Overflow/Underflow Panic Detected"
    description :=
      "Solidity 0.8 panic detected at step " ++ toString row.step ++ " with selector " ++
      pi.selector ++ " and code 0x" ++ natToHex (pi.code.getD 0) ++
      " (arithmetic overflow/underflow). The transaction reverted due to arithmetic operation exceeding valid range. " ++
      (if precedingOps ≠ [] then
        "Found " ++ toString precedingOps.length ++ " arithmetic operations (" ++
        String.intercalate ", " (precedingOps.map (fun o => o.op)) ++ ") in preceding " ++
        toString (min 30 (row.step - 1)) ++ " steps."
      else "No preceding arithmetic operations detected in lookback window.")
    evidence := .panic row.step pi.selector pi.code frameId (precedingOps.take 5)
    recommendation := getRecommendation "ArithmeticOverflowUnderflow"
    tags := ["dynamic", "overflow", "panic-detected"] }

/-- The primary (`Panic(0x11)`) branch of `detectOverflow` for one REVERT
row: decode the revert payload from the raw trace's stack and memory at
`structLogs[step - 1]`; the size read off the stack must be positive and at
most 200; a decoded panic with code `0x11` yields one high finding. -/
def panicFindingFor (rows : List Row) (stepToFrameId : List (Option Nat))
    (trace : Option TraceData) (row : Row) : Option VFinding :=
  let frameId := if row.step = 0 then none else stepToFrameId[row.step - 1]?
  let panicInfo : Option PanicInfo :=
    match trace with
    | none => none
    | some t =>
      match (if row.step = 0 then none else t.structLogs[row.step - 1]?) with
      | none => none
      | some log =>
        if log.stack.length < 2 then none
        else
          match log.stack[log.stack.length - 1]?, log.stack[log.stack.length - 2]? with
          | some offsetHex, some sizeHex =>
            match parseHex? offsetHex, parseHex? sizeHex with
            | some offset, some size =>
              if 0 < size ∧ size ≤ 200 then
                match extractMemoryRange offset size log.memory with
                | some revertData => decodePanicRevert revertData
                | none => none
              else none
            | _, _ => none
          | _, _ => none
  match panicInfo with
  | some pi =>
    if pi.code = some 0x11 then
      some (mkPanicFinding row frameId pi
        (findPrecedingArithmetic rows stepToFrameId (row.step - 1) frameId 30))
    else none
  | none => none

/-- The fallback heuristic finding of `detectOverflow`. -/
def mkHeuristicFinding (row failureRow : Row) : VFinding :=
  { rule := "ArithmeticOverflowUnderflow"
    severity := "medium"
    title := "Possible " ++ row.op ++ " Overflow/Underflow (Heuristic)"
    description :=
      "Arithmetic operation (" ++ row.op ++ ") at step " ++ toString row.step ++
      " followed by " ++ failureRow.op ++ " at step " ++ toString failureRow.step ++
      ". May indicate overflow check in Solidity >=0.8 or SafeMath library. No Panic selector confirmed."
    evidence := .heuristic row.step row.op failureRow.step failureRow.op
      (failureRow.step - row.step)
    recommendation := getRecommendation "ArithmeticOverflowUnderflow"
    tags := ["dynamic", "overflow", "heuristic"] }

/-- The fallback branch of `detectOverflow` for one row: an arithmetic row
at index `idx` followed by INVALID or REVERT within the loop
`for (i = idx + 1; i < Math.min(idx + 5, len); i++)` yields one medium
finding for the first such halt. -/
def heuristicFindingFor (rows : List Row) (p : Nat × Row) : Option VFinding :=
  if p.2.op ∈ ARITH_OPS then
    let hits := (List.range' (p.1 + 1) (min (p.1 + 5) rows.length - (p.1 + 1))).filterMap
      fun i =>
        match rows[i]? with
        | some r => if r.op = "INVALID" ∨ r.op = "REVERT" then some r else none
        | none => none
    match hits with
    | [] => none
    | r :: _ => some (mkHeuristicFinding p.2 r)
  else none

/-- Source `detectOverflow` (vuln_detect.js): the `Panic(0x11)` pass over
all REVERT rows, followed unconditionally by the fallback heuristic pass
over all arithmetic rows.  (The `return` that the source's comment says
skips the fallback only leaves the `forEach` callback for that REVERT row;
both passes always run.) -/
def detectOverflow (rows : List Row) (stepToFrameId : List (Option Nat))
    (trace : Option TraceData) : List VFinding :=
  if rows = [] then []
  else
    (rows.filter (fun r => decide (r.op = "REVERT"))).filterMap
      (panicFindingFor rows stepToFrameId trace) ++
    rows.enum.filterMap (heuristicFindingFor rows)

end VulnDetect

namespace FrameRec

open JsStr

/-- One `structLogs` entry as consumed by the frame builder.  `gasCost`
carries the numeric value the source obtains from
`hexToNumber(log.gasCost)` (the builder only compares it with 0 and adds it
to `gasSpent`). -/
structure StructLog where
  pc : Nat := 0
  op : Option String := none
  gas : Nat := 0
  gasCost : Nat := 0
  depth : Option Nat := none
  stack : List String := []
  memory : List String := []
deriving DecidableEq

/-- Transaction metadata `{from, to, input, value}`. -/
structure TxMeta where
  fromAddr : Option String := none
  toAddr : Option String := none
  input : Option String := none
  value : Option String := none
deriving DecidableEq

/-- Reconstructed call frame (part_000).  The JavaScript `from` field is
`fromAddr` here (`from` is reserved in Lean); `null` is `none`. -/
structure BFrame where
  id : Nat
  parentId : Option Nat
  depthEnter : Nat
  depth : Nat
  type : String
  fromAddr : Option String
  toAddr : Option String
  value : Option String
  input : Option String
  selector : Option String
  gasSpent : Nat
  startStep : Nat
  endStep : Nat
  success : Option Bool
  error : Option String
  children : List Nat
deriving DecidableEq

instance : Inhabited BFrame :=
  ⟨{ id := 0, parentId := none, depthEnter := 0, depth := 0, type := "", fromAddr := none,
     toAddr := none, value := none, input := none, selector := none, gasSpent := 0,
     startStep := 0, endStep := 0, success := none, error := none, children := [] }⟩

/-- Source `readMemory` (part_000): flatten the 32-byte memory words to
byte pairs, slice `[offset, offset + size)`, and zero-pad the result up to
`size` bytes.  (An empty memory array is truthy in JavaScript, so only
`size === 0` short-circuits.) -/
def readMemory (memoryWords : List String) (offset size : Nat) : String :=
  if size = 0 then "0x"
  else
    let memoryBytes := memoryWords.flatMap fun word =>
      let hexStr := padStartZeros (remove0x word) 64
      (List.range 32).map fun j => substring hexStr (j * 2) (j * 2 + 2)
    let result := String.join ((memoryBytes.drop offset).take size)
    "0x" ++ result ++ String.mk (List.replicate (size * 2 - result.data.length) '0')

/-- Source `getSelector` (part_000): first 4 bytes (10 hex characters) of
the calldata. -/
def getSelector (calldata : String) : Option String :=
  if calldata.data.length < 10 then none else some (substring calldata 0 10)

/-- Source `hexToNumber` (part_000).  A `NaN` result of `parseInt`
collapses to 0 here; every consumer (gas comparison with 0, memory
offset/size where the byte slice of an absent region is empty either way)
behaves identically under this collapse. -/
def hexToNumber (hex : Option String) : Nat :=
  match hex with
  | none => 0
  | some h => if h = "" ∨ h = "0x" then 0 else (parseHex? h).getD 0

/-- Decimal digit value. -/
def decDigit? (c : Char) : Option Nat :=
  if '0' ≤ c ∧ c ≤ '9' then some (c.toNat - '0'.toNat) else none

/-- Leading decimal digits, `parseInt(s, 10)` style. -/
def decAcc : List Char → Nat → Nat
  | [], acc => acc
  | c :: rest, acc =>
    match decDigit? c with
    | some d => decAcc rest (acc * 10 + d)
    | none => acc

/-- JavaScript `parseInt(s, 10)`, `none` for `NaN`. -/
def parseDec? (s : String) : Option Nat :=
  match s.data with
  | [] => none
  | c :: rest =>
    match decDigit? c with
    | some d => some (decAcc rest d)
    | none => none

/-- Source `numberToHex` (part_000) applied to a string argument: keep an
already-`0x`-marked string, else render the decimal value in hex (a
non-numeric string renders as `0xNaN`, as in the source). -/
def numberToHexStr (num : String) : String :=
  if "0x".data.isPrefixOf num.data then num
  else
    match parseDec? num with
    | some n => "0x" ++ natToHex n
    | none => "0xNaN"

/-- Source `extractAddress` (part_000): lowercased last 40 hex characters,
left-padded when shorter. -/
def extractAddress (hex : String) : String :=
  if hex = "" then "0x" ++ String.mk (List.replicate 40 '0')
  else
    let clean := lowerStr (remove0x hex)
    let addr :=
      if 40 ≤ clean.data.length then lastChars clean 40 else padStartZeros clean 40
    "0x" ++ addr

/-- The six frame-opening opcodes. -/
def CALL_FRAME_OPS : List String :=
  ["CALL", "DELEGATECALL", "STATICCALL", "CALLCODE", "CREATE", "CREATE2"]

/-- State of the builder's main loop: the frame list indexed by id (ids are
assigned in push order, so `frames[i].id = i`), the open-frame stack as a
list of ids with the head on top, the step map so far, and the previous
step's depth. -/
structure BuildSt where
  frames : List BFrame
  stack : List Nat
  stepToFrameId : List Nat
  lastDepth : Nat
deriving DecidableEq

/-- Frame lookup by id (always in range on the paths the source takes). -/
def getFrame (frames : List BFrame) (i : Nat) : BFrame :=
  frames.getD i default

/-- In-place frame replacement by id. -/
def setFrame (frames : List BFrame) (i : Nat) (f : BFrame) : List BFrame :=
  frames.set i f

/-- Closing updates applied to a frame popped on a depth decrease: set
`endStep` to the previous step, then infer failure from the current
opcode (the source reads `structLogs[step]`, the step being processed) or
default an unresolved non-root frame to success. -/
def closeExiting (step : Nat) (curOpRaw : Option String) (f : BFrame) : BFrame :=
  let f1 := { f with endStep := step - 1 }
  if curOpRaw = some "REVERT" then { f1 with error := some "REVERT", success := some false }
  else if curOpRaw = some "INVALID" then
    { f1 with error := some "INVALID", success := some false }
  else if f1.type ≠ "ROOT" ∧ f1.success = none then { f1 with success := some true }
  else f1

/-- The `while (frameStack.length > 1 && top.depth >= depth)` pop loop. -/
def popLoop (step : Nat) (curOpRaw : Option String) (d : Nat) :
    List Nat → List BFrame → List BFrame × List Nat
  | top :: r1 :: rest, frames =>
    if d ≤ (getFrame frames top).depth then
      popLoop step curOpRaw d (r1 :: rest)
        (setFrame frames top (closeExiting step curOpRaw (getFrame frames top)))
    else (frames, top :: r1 :: rest)
  | stack, frames => (frames, stack)

/-- Opcode-specific parsing of `to`/`value`/`input`/`selector` from the
operand stack and memory (part_000 lines 215-277).  The source indexes the
stack array absolutely (`stack[5]`, `stack[4]`, ...); short stacks leave
every field `null`. -/
def parseCallParams (opcode : String) (stack memory : List String) :
    Option String × Option String × Option String × Option String :=
  if opcode = "CALL" ∨ opcode = "CALLCODE" then
    if 7 ≤ stack.length then
      let inOffset := hexToNumber stack[3]?
      let inSize := hexToNumber stack[2]?
      let input := readMemory memory inOffset inSize
      (some (extractAddress ((stack[5]?).getD "")), stack[4]?, some input, getSelector input)
    else (none, none, none, none)
  else if opcode = "DELEGATECALL" ∨ opcode = "STATICCALL" then
    if 6 ≤ stack.length then
      let inOffset := hexToNumber stack[3]?
      let inSize := hexToNumber stack[2]?
      let input := readMemory memory inOffset inSize
      (some (extractAddress ((stack[4]?).getD "")), some "0x0", some input, getSelector input)
    else (none, none, none, none)
  else if opcode = "CREATE" then
    if 3 ≤ stack.length then
      let offset := hexToNumber stack[1]?
      let size := hexToNumber stack[0]?
      (none, stack[2]?, some (readMemory memory offset size), none)
    else (none, none, none, none)
  else if opcode = "CREATE2" then
    if 4 ≤ stack.length then
      let offset := hexToNumber stack[2]?
      let size := hexToNumber stack[1]?
      (none, stack[3]?, some (readMemory memory offset size), none)
    else (none, none, none, none)
  else (none, none, none, none)

/-- Everything one loop iteration does besides recording the step map
entry: gas accumulation on the step's frame, the depth-decrease pop loop,
frame entry on a call-class opcode (the parent is the frame that was on
top when the step began, exactly as the source's `currentFrame` binding),
and the direct status update on an explicit halt opcode. -/
def stepCore (step : Nat) (log : StructLog) (st : BuildSt) : List BFrame × List Nat × Nat :=
  match st.stack with
  | [] => (st.frames, st.stack, st.lastDepth)
  | curId :: _ =>
    let opcode :=
      match log.op with
      | some s => if s = "" then "UNKNOWN" else s
      | none => "UNKNOWN"
    let depth := log.depth.getD 0
    let frames1 :=
      if 0 < log.gasCost then
        setFrame st.frames curId
          { (getFrame st.frames curId) with
            gasSpent := (getFrame st.frames curId).gasSpent + log.gasCost }
      else st.frames
    let popped :=
      if depth < st.lastDepth then popLoop step log.op depth st.stack frames1
      else (frames1, st.stack)
    let entered :=
      if opcode ∈ CALL_FRAME_OPS then
        let newId := popped.1.length
        let params := parseCallParams opcode log.stack log.memory
        let nf : BFrame :=
          { id := newId, parentId := some curId, depthEnter := depth, depth := depth + 1,
            type := opcode, fromAddr := (getFrame popped.1 curId).toAddr, toAddr := params.1,
            value := params.2.1, input := params.2.2.1, selector := params.2.2.2,
            gasSpent := 0, startStep := step, endStep := step, success := none, error := none,
            children := [] }
        let frames3 := popped.1 ++ [nf]
        let frames4 :=
          setFrame frames3 curId
            { (getFrame frames3 curId) with
              children := (getFrame frames3 curId).children ++ [newId] }
        (frames4, newId :: popped.2)
      else (popped.1, popped.2)
    let frames6 :=
      if opcode = "RETURN" ∨ opcode = "REVERT" ∨ opcode = "STOP" ∨ opcode = "INVALID" then
        if opcode = "REVERT" ∨ opcode = "INVALID" then
          setFrame entered.1 curId
            { (getFrame entered.1 curId) with error := some opcode, success := some false }
        else
          let cf := getFrame entered.1 curId
          if cf.type ≠ "ROOT" ∧ cf.success = none then
            setFrame entered.1 curId { cf with success := some true }
          else entered.1
      else entered.1
    (frames6, entered.2, depth)

/-- The id recorded in the step map for this step: the stack top, or (on
the source's defensive empty-stack path) `frames[0].id`. -/
def assignedId (st : BuildSt) : Nat :=
  match st.stack with
  | curId :: _ => curId
  | [] =>
    match st.frames with
    | f :: _ => f.id
    | [] => 0

/-- One loop iteration: push exactly one step map entry, then apply
`stepCore` (the source's empty-stack path `continue`s after the push,
which `stepCore` reproduces by leaving the rest of the state unchanged). -/
def processStep (step : Nat) (log : StructLog) (st : BuildSt) : BuildSt :=
  let c := stepCore step log st
  { frames := c.1, stack := c.2.1, stepToFrameId := st.stepToFrameId ++ [assignedId st],
    lastDepth := c.2.2 }

/-- The main loop over the steps. -/
def buildGo : Nat → List StructLog → BuildSt → BuildSt
  | _, [], st => st
  | step, log :: rest, st => buildGo (step + 1) rest (processStep step log st)

/-- The `while (frameStack.length > 1)` closing loop at stream end. -/
def closeRemaining (lastStep : Nat) : List Nat → List BFrame → List BFrame
  | top :: r1 :: rest, frames =>
    let f := getFrame frames top
    let f1 := { f with endStep := lastStep }
    let f2 := if f1.success = none then { f1 with success := some true } else f1
    closeRemaining lastStep (r1 :: rest) (setFrame frames top f2)
  | _, frames => frames

/-- Result shape `{frames, stepToFrameId}` of `buildCallFrames`. -/
structure BuildResult where
  frames : List BFrame
  stepToFrameId : List Nat
deriving DecidableEq

/-- The root frame opened before the loop (part_000 lines 109-126). -/
def mkRootFrame (structLogs : List StructLog) (txMeta : TxMeta) : BFrame :=
  { id := 0, parentId := none, depthEnter := 0, depth := 0, type := "ROOT"
    fromAddr :=
      match txMeta.fromAddr with
      | some s => if s = "" then none else some (lowerStr s)
      | none => none
    toAddr :=
      match txMeta.toAddr with
      | some s => if s = "" then none else some (lowerStr s)
      | none => none
    value :=
      match txMeta.value with
      | some v => if v = "" then some "0x0" else some (numberToHexStr v)
      | none => some "0x0"
    input := txMeta.input
    selector :=
      match txMeta.input with
      | some i => if i = "" then none else getSelector i
      | none => none
    gasSpent := 0, startStep := 0, endStep := structLogs.length - 1
    success := none, error := none, children := [] }

/-- Source `buildCallFrames` (part_000): empty traces yield the empty
result; otherwise run the loop from the root frame, force-close the open
frames at the last step, and resolve the root's bounds and status from the
last log. -/
def buildCallFrames (structLogs : List StructLog) (txMeta : TxMeta) : BuildResult :=
  if structLogs = [] then { frames := [], stepToFrameId := [] }
  else
    let st0 : BuildSt :=
      { frames := [mkRootFrame structLogs txMeta], stack := [0], stepToFrameId := [],
        lastDepth := 0 }
    let stF := buildGo 0 structLogs st0
    let frames1 := closeRemaining (structLogs.length - 1) stF.stack stF.frames
    let r0 := { (getFrame frames1 0) with endStep := structLogs.length - 1 }
    let r1 :=
      match structLogs.getLast? with
      | some lastLog =>
        match lastLog.op with
        | some "REVERT" => { r0 with error := some "REVERT", success := some false }
        | some "INVALID" => { r0 with error := some "INVALID", success := some false }
        | _ => { r0 with success := some true }
      | none => { r0 with success := some true }
    { frames := setFrame frames1 0 r1, stepToFrameId := stF.stepToFrameId }

/-- Result shape of `validateFrames`. -/
structure Validation where
  valid : Bool
  issues : List String
deriving DecidableEq

/-- Source `validateFrames` (part_000): advisory integrity checks (parent
exists, children exist, non-root depth is parent depth plus one, step
bounds are ordered). -/
def validateFrames (frames : List BFrame) : Validation :=
  let idSet := frames.map fun f => f.id
  let issues := frames.flatMap fun frame =>
    (match frame.parentId with
     | some p =>
       if p ∈ idSet then []
       else ["Frame " ++ toString frame.id ++ ": invalid parentId " ++ toString p]
     | none => []) ++
    (frame.children.filterMap fun childId =>
      if childId ∈ idSet then none
      else some ("Frame " ++ toString frame.id ++ ": invalid child " ++ toString childId)) ++
    (match frame.parentId with
     | some pid =>
       match frames.find? (fun f => decide (f.id = pid)) with
       | some parent =>
         if frame.depth ≠ parent.depth + 1 then
           ["Frame " ++ toString frame.id ++ ": depth " ++ toString frame.depth ++
            " != parent depth " ++ toString parent.depth ++ " + 1"]
         else []
       | none => []
     | none => []) ++
    (if frame.endStep < frame.startStep then
      ["Frame " ++ toString frame.id ++ ": endStep < startStep"]
     else [])
  { valid := issues.isEmpty, issues := issues }

end FrameRec

section FrameBuilderClaims

open FrameRec

/-- Each loop iteration extends the step map by exactly its own entry. -/
theorem processStep_stepToFrameId (step : Nat) (log : StructLog) (st : BuildSt) :
    (processStep step log st).stepToFrameId = st.stepToFrameId ++ [assignedId st] := rfl

/-- The main loop adds one step map entry per processed log. -/
theorem buildGo_stepToFrameId_length (logs : List StructLog) :
    ∀ (step : Nat) (st : BuildSt),
      (buildGo step logs st).stepToFrameId.length = st.stepToFrameId.length + logs.length := by
  induction logs with
  | nil => intro step st; simp [buildGo]
  | cons log rest ih =>
    intro step st
    simp only [buildGo, ih, processStep_stepToFrameId, List.length_append, List.length_cons,
      List.length_nil]
    omega

/-- C2: for every input trace and call metadata, the step-to-frame map
produced by the frame builder has exactly one entry per step — its length
equals the number of steps, so no step index is unmapped or mapped twice
(the map is an array indexed by step). -/
theorem c2_step_map_total (structLogs : List StructLog) (txMeta : TxMeta) :
    (buildCallFrames structLogs txMeta).stepToFrameId.length = structLogs.length := by
  by_cases h : structLogs = []
  · subst h; rfl
  · simp [buildCallFrames, h, buildGo_stepToFrameId_length]

/-- Minimal failing trace for the depth invariant of C3: a single CALL
step at depth 1, the depth geth-style tracers report for top-level code
(the builder's own demo trace has the same shape). -/
def c3Logs : List StructLog := [{ op := some "CALL", depth := some 1 }]

/-- Call metadata for the C3 failing trace. -/
def c3Meta : TxMeta := {}

/-- C3 (code bug witnessed): on the failing trace the builder produces a
non-root frame of depth 2 whose parent (the ROOT frame) has depth 0, so
`depth = parent.depth + 1` fails and the builder's own `validateFrames`
rejects the result, while the step-bound half of the invariant holds on
this output. -/
theorem c3_depth_invariant_code_bug :
    (validateFrames (buildCallFrames c3Logs c3Meta).frames).valid = false ∧
    ((buildCallFrames c3Logs c3Meta).frames.map fun f => (f.id, f.parentId, f.depth)) =
      [(0, none, 0), (1, some 0, 2)] ∧
    ((buildCallFrames c3Logs c3Meta).frames.map fun f =>
      decide (f.startStep ≤ f.endStep ∧ f.endStep ≤ c3Logs.length - 1)) = [true, true] := by
  decide

end FrameBuilderClaims

section MergerClaims

open JsStr MergeFindings

/-- The merge marker pattern as a character list. -/
def markerPat : List Char := "[MERGED]".data

/-- The prepended marker (with its trailing space) as a character list. -/
def markerSp : List Char := "[MERGED] ".data

/-- Prepending the marker adds exactly one occurrence: the marker pattern
starts with a bracket that appears nowhere else in the prepended prefix, so
no new occurrence can straddle the seam. -/
theorem countOcc_markerSp (t : List Char) :
    countOcc markerPat (markerSp ++ t) = 1 + countOcc markerPat t := by
  show countOcc markerPat
      ('[' :: 'M' :: 'E' :: 'R' :: 'G' :: 'E' :: 'D' :: ']' :: ' ' :: t) =
    1 + countOcc markerPat t
  have h0 : markerPat.isPrefixOf
      ('[' :: 'M' :: 'E' :: 'R' :: 'G' :: 'E' :: 'D' :: ']' :: ' ' :: t) = true := rfl
  have h1 : markerPat.isPrefixOf
      ('M' :: 'E' :: 'R' :: 'G' :: 'E' :: 'D' :: ']' :: ' ' :: t) = false := rfl
  have h2 : markerPat.isPrefixOf ('E' :: 'R' :: 'G' :: 'E' :: 'D' :: ']' :: ' ' :: t) = false :=
    rfl
  have h3 : markerPat.isPrefixOf ('R' :: 'G' :: 'E' :: 'D' :: ']' :: ' ' :: t) = false := rfl
  have h4 : markerPat.isPrefixOf ('G' :: 'E' :: 'D' :: ']' :: ' ' :: t) = false := rfl
  have h5 : markerPat.isPrefixOf ('E' :: 'D' :: ']' :: ' ' :: t) = false := rfl
  have h6 : markerPat.isPrefixOf ('D' :: ']' :: ' ' :: t) = false := rfl
  have h7 : markerPat.isPrefixOf (']' :: ' ' :: t) = false := rfl
  have h8 : markerPat.isPrefixOf (' ' :: t) = false := rfl
  simp [countOcc, h0, h1, h2, h3, h4, h5, h6, h7, h8]

/-- The `includes` test agrees with a nonzero occurrence count. -/
theorem containsL_markerPat (l : List Char) :
    containsL markerPat l = true ↔ countOcc markerPat l ≠ 0 := by
  induction l with
  | nil => exact ⟨fun h => absurd h (by decide), fun h => absurd rfl h⟩
  | cons c rest ih =>
    simp only [containsL, countOcc]
    cases hp : markerPat.isPrefixOf (c :: rest) with
    | true => simp
    | false => simpa using ih

/-- The title update of the collision branch, in closed form. -/
theorem mergeCollision_title (ex inc : MFinding) :
    (mergeCollision ex inc).title =
      if containsStr ex.title "[MERGED]" then ex.title else "[MERGED] " ++ ex.title := rfl

/-- A marker-free title gains exactly one marker on the first merge. -/
theorem mergeCollision_marker_first (ex inc : MFinding)
    (h : countOcc markerPat ex.title.data = 0) :
    countOcc markerPat (mergeCollision ex inc).title.data = 1 := by
  rw [mergeCollision_title]
  have hc : containsStr ex.title "[MERGED]" = false := by
    cases hb : containsStr ex.title "[MERGED]" with
    | false => rfl
    | true => exact absurd ((containsL_markerPat _).mp hb) (by simp [h])
  simp only [hc, Bool.false_eq_true, if_false]
  rw [String.data_append]
  show countOcc markerPat (markerSp ++ ex.title.data) = 1
  rw [countOcc_markerSp, h]

/-- A title already holding the marker once is left unchanged by a further
merge. -/
theorem mergeCollision_marker_once (ex inc : MFinding)
    (h : countOcc markerPat ex.title.data = 1) :
    countOcc markerPat (mergeCollision ex inc).title.data = 1 := by
  rw [mergeCollision_title]
  have hc : containsStr ex.title "[MERGED]" = true :=
    (containsL_markerPat _).mpr (by rw [h]; omega)
  simpa [hc] using h

/-- Folding further merges over a once-marked finding keeps the count at
one. -/
theorem foldl_mergeCollision_marker (gs : List MFinding) :
    ∀ x : MFinding, countOcc markerPat x.title.data = 1 →
      countOcc markerPat ((gs.foldl mergeCollision x).title).data = 1 := by
  induction gs with
  | nil => intro x hx; simpa using hx
  | cons g rest ih => intro x hx; exact ih _ (mergeCollision_marker_once x g hx)

/-- C4: merging a static finding into an existing finding under one dedup
key any number of times yields a record whose title contains the `[MERGED]`
marker exactly once: the collision step of `mergeFindings` prepends the
marker only when absent, so iterating it never adds a second one (the
existing finding's title is assumed marker-free, as every detector- and
normalizer-produced title is). -/
theorem c4_merge_marker_once (f g : MFinding) (gs : List MFinding)
    (h : countOcc markerPat f.title.data = 0) :
    countOcc markerPat ((gs.foldl mergeCollision (mergeCollision f g)).title).data = 1 :=
  foldl_mergeCollision_marker gs _ (mergeCollision_marker_first f g h)

/-- A concrete existing finding for the C4 witness. -/
def c4Base : MFinding :=
  { rule := "ReentrancyHeuristicFrame", severity := "high",
    title := "Potential Reentrancy: External Call Before State Update (Frame-Aware)",
    description := "d" }

/-- A concrete incoming static finding for the C4 witness. -/
def c4Inc : MFinding :=
  { id := "STATIC-SLITHER-0001", rule := "ReentrancyHeuristicFrame", severity := "medium",
    title := "reentrancy-eth", description := "d", tags := ["static", "slither"] }

/-- C4 witness: merging the same static finding three times into a
marker-free finding leaves exactly one marker occurrence in the title. -/
theorem c4_merge_marker_once_witness :
    countOcc markerPat c4Base.title.data = 0 ∧
    countOcc markerPat
      (([c4Inc, c4Inc].foldl mergeCollision (mergeCollision c4Base c4Inc)).title).data = 1 :=
  ⟨by decide, c4_merge_marker_once c4Base c4Inc [c4Inc, c4Inc] (by decide)⟩

/-- The severity update of the collision branch, in closed form. -/
theorem mergeCollision_severity (ex inc : MFinding) :
    (mergeCollision ex inc).severity =
      if severityRank ex.severity < severityRank inc.severity then inc.severity
      else ex.severity := rfl

/-- C5: on a dedup-key collision the merger keeps the rank-maximal
severity: the surviving rank is the maximum of the two ranks and the
surviving string is one of the two inputs; in particular merging low into
high leaves high, and merging critical into medium raises to critical. -/
theorem c5_severity_max (ex inc : MFinding) :
    (severityRank (mergeCollision ex inc).severity =
      max (severityRank ex.severity) (severityRank inc.severity) ∧
    ((mergeCollision ex inc).severity = ex.severity ∨
      (mergeCollision ex inc).severity = inc.severity)) ∧
    (ex.severity = "high" → inc.severity = "low" →
      (mergeCollision ex inc).severity = "high") ∧
    (ex.severity = "medium" → inc.severity = "critical" →
      (mergeCollision ex inc).severity = "critical") := by
  refine ⟨⟨?_, ?_⟩, ?_, ?_⟩
  · rw [mergeCollision_severity]
    by_cases h : severityRank ex.severity < severityRank inc.severity
    · simp [h, Nat.max_eq_right (Nat.le_of_lt h)]
    · simp [h, Nat.max_eq_left (Nat.le_of_not_lt h)]
  · rw [mergeCollision_severity]
    by_cases h : severityRank ex.severity < severityRank inc.severity
    · simp [h]
    · simp [h]
  · intro hex hinc
    rw [mergeCollision_severity, hex, hinc]
    decide
  · intro hex hinc
    rw [mergeCollision_severity, hex, hinc]
    decide

/-- A concrete high-severity finding for the C5 witness. -/
def c5High : MFinding := { rule := "r", severity := "high", title := "t", description := "d" }

/-- A concrete low-severity finding for the C5 witness. -/
def c5Low : MFinding := { rule := "r", severity := "low", title := "t", description := "d" }

/-- A concrete medium-severity finding for the C5 witness. -/
def c5Med : MFinding := { rule := "r", severity := "medium", title := "t", description := "d" }

/-- A concrete critical-severity finding for the C5 witness. -/
def c5Crit : MFinding := { rule := "r", severity := "critical", title := "t", description := "d" }

/-- C5 witness: both cited escalation instances, obtained from the
theorem at concrete findings. -/
theorem c5_severity_max_witness :
    (mergeCollision c5High c5Low).severity = "high" ∧
    (mergeCollision c5Med c5Crit).severity = "critical" :=
  ⟨(c5_severity_max c5High c5Low).2.1 rfl rfl, (c5_severity_max c5Med c5Crit).2.2 rfl rfl⟩

end MergerClaims

section SeverityMappingClaims

open JsStr MergeFindings

/-- C9 counterexample: the Mythril severity map is case-sensitive — the
two inputs `"High"` and `"HIGH"` agree up to case, yet the first maps to
`"high"` while the second falls through to the `"medium"` default, so the
claimed case-insensitive mapping fails for the Mythril vendor shape. -/
theorem c9_mythril_case_counterexample :
    lowerStr "HIGH" = lowerStr "High" ∧
    mapMythrilSeverity (some "High") = "high" ∧
    mapMythrilSeverity (some "HIGH") = "medium" := by decide

/-- C9 amended: the Slither impact mapping is case-insensitive on the
source's scale (high/medium/low/informational/optimization) and defaults
to medium when unrecognized, while the Mythril severity mapping matches
the exact strings High/Medium/Low/Informational only, every other string
(including differently-cased variants) defaulting to medium. -/
theorem c9_severity_mapping_amended :
    (∀ s t : Option String, lowerStr (s.getD "") = lowerStr (t.getD "") →
      mapSlitherSeverity s = mapSlitherSeverity t) ∧
    (∀ s : Option String,
      lowerStr (s.getD "") ∉ ["high", "medium", "low", "informational", "optimization"] →
      mapSlitherSeverity s = "medium") ∧
    (mapSlitherSeverity (some "High") = "high" ∧ mapSlitherSeverity (some "MEDIUM") = "medium" ∧
      mapSlitherSeverity (some "Low") = "low" ∧
      mapSlitherSeverity (some "INFORMATIONAL") = "low" ∧
      mapSlitherSeverity (some "Optimization") = "low") ∧
    (∀ s : Option String, s ≠ some "High" → s ≠ some "Medium" → s ≠ some "Low" →
      s ≠ some "Informational" → mapMythrilSeverity s = "medium") ∧
    (mapMythrilSeverity (some "High") = "high" ∧ mapMythrilSeverity (some "Medium") = "medium" ∧
      mapMythrilSeverity (some "Low") = "low" ∧
      mapMythrilSeverity (some "Informational") = "low") := by
  refine ⟨?_, ?_, by decide, ?_, by decide⟩
  · intro s t h
    simp only [mapSlitherSeverity]
    rw [h]
  · intro s h
    simp only [List.mem_cons, List.mem_singleton, not_or] at h
    obtain ⟨h1, h2, h3, h4, h5⟩ := h
    simp [mapSlitherSeverity, h1, h2, h3, h4, h5]
  · intro s h1 h2 h3 h4
    unfold mapMythrilSeverity
    split
    · exact absurd rfl h1
    · exact absurd rfl h2
    · exact absurd rfl h3
    · exact absurd rfl h4
    · rfl

/-- C9 witness: the amended theorem applied at concrete inputs — two
casings of the Slither impact `high` map alike, and the unrecognized
Mythril casing `HIGH` defaults to medium. -/
theorem c9_severity_mapping_amended_witness :
    lowerStr ((some "HiGh" : Option String).getD "") =
      lowerStr ((some "high" : Option String).getD "") ∧
    mapSlitherSeverity (some "HiGh") = mapSlitherSeverity (some "high") ∧
    mapMythrilSeverity (some "HIGH") = "medium" :=
  ⟨by decide, c9_severity_mapping_amended.1 (some "HiGh") (some "high") (by decide),
    c9_severity_mapping_amended.2.2.2.1 (some "HIGH") (by decide) (by decide) (by decide)
      (by decide)⟩

end SeverityMappingClaims

section DynamicCollisionClaims

open MergeFindings

/-- The specification's account of the dynamic pass: keep the first
finding of each dedup key, unchanged, and silently discard every later
finding carrying an already-seen key. -/
def specDedupDynamic (seen : List String) : List MFinding → List MFinding
  | [] => []
  | f :: rest =>
    if findingKey f ∈ seen then specDedupDynamic seen rest
    else f :: specDedupDynamic (seen ++ [findingKey f]) rest

/-- The dynamic pass refines the specification's first-wins dedup, for any
starting map state. -/
theorem foldl_insertDynamic_spec (dyn : List MFinding) :
    ∀ st : List (String × MFinding),
      (dyn.foldl insertDynamic st).map Prod.snd =
        st.map Prod.snd ++ specDedupDynamic (st.map Prod.fst) dyn := by
  induction dyn with
  | nil => intro st; simp [specDedupDynamic]
  | cons f rest ih =>
    intro st
    simp only [List.foldl_cons, insertDynamic]
    by_cases h : st.any (fun e => decide (e.1 = findingKey f)) = true
    · have hmem : findingKey f ∈ st.map Prod.fst := by
        obtain ⟨e, he, hp⟩ := List.any_eq_true.mp h
        rw [decide_eq_true_eq] at hp
        exact List.mem_map.mpr ⟨e, he, hp⟩
      rw [if_pos h, ih st, specDedupDynamic, if_pos hmem]
    · have hmem : findingKey f ∉ st.map Prod.fst := by
        intro hin
        obtain ⟨e, he, hp⟩ := List.mem_map.mp hin
        exact h (List.any_eq_true.mpr ⟨e, he, decide_eq_true_eq.mpr hp⟩)
      rw [if_neg h, ih (st ++ [(findingKey f, f)])]
      simp only [List.map_append, List.map_cons, List.map_nil]
      rw [specDedupDynamic, if_neg hmem]
      simp

/-- C10: two detector (dynamic) findings sharing a dedup key are never
merged — the dynamic pass keeps exactly the first finding per key,
unmodified (no severity escalation, evidence append, tag union or merged
marker), and silently discards the later ones; with no static input the
merger's output is exactly that first-wins dedup. -/
theorem c10_dynamic_collision_drop (dynamicFindings : List MFinding) :
    mergeFindings dynamicFindings none none = specDedupDynamic [] dynamicFindings ∧
    (dynamicPhase dynamicFindings).map Prod.snd = specDedupDynamic [] dynamicFindings := by
  have hdyn : (dynamicPhase dynamicFindings).map Prod.snd =
      specDedupDynamic [] dynamicFindings := by
    have := foldl_insertDynamic_spec dynamicFindings []
    simpa [dynamicPhase] using this
  refine ⟨?_, hdyn⟩
  simpa [mergeFindings, normalizeSlitherFindings, normalizeMythrilFindings] using hdyn

end DynamicCollisionClaims

section ReentrancyClaims

open VulnDetect

/-- The frame id recorded in a reentrancy finding's evidence. -/
def evidFrameId : VEvidence → Option Nat
  | .r1 fid _ _ _ _ _ _ _ _ => some fid
  | .r2 fid _ _ _ _ _ _ _ _ _ => some fid
  | _ => none

/-- The (frame id, slot) pair of a multiple-writes (race) finding's
evidence, `none` for every other evidence shape. -/
def raceKey : VEvidence → Option (Nat × String)
  | .r2 fid _ _ _ _ _ slot _ _ _ => some (fid, slot)
  | _ => none

/-- The call list collected for a frame id by the detector's row scan. -/
def frameCalls (parsed : ParsedData) (trace : Option TraceData) (fid : Nat) : List CallInfo :=
  mapGet (buildFrameMaps parsed trace).calls (some fid)

/-- The store list collected for a frame id by the detector's row scan. -/
def frameStores (parsed : ParsedData) (trace : Option TraceData) (fid : Nat) : List StoreInfo :=
  mapGet (buildFrameMaps parsed trace).stores (some fid)

/-- Every rule-R1 finding for a frame is a `mkR1Finding` of that frame. -/
theorem mem_r1Frame (maps : FrameMaps) (g : VFrame) (fd : VFinding)
    (h : fd ∈ r1Frame maps g) :
    ∃ c after, fd = mkR1Finding g c after := by
  simp only [r1Frame] at h
  split at h
  · simp at h
  · obtain ⟨c, _, heq⟩ := List.mem_filterMap.mp h
    split at heq
    · simp at heq
    · split at heq
      · simp at heq
      · split at heq
        · exact ⟨c, _, (Option.some_inj.mp heq).symm⟩
        · simp at heq

/-- Every rule-R2 finding for a frame is a `mkR2Finding` of that frame. -/
theorem mem_r2Frame (maps : FrameMaps) (g : VFrame) (fd : VFinding)
    (h : fd ∈ r2Frame maps g) :
    ∃ c slot count multis, fd = mkR2Finding g c slot count multis := by
  simp only [r2Frame] at h
  split at h
  · simp at h
  · obtain ⟨c, _, hmem⟩ := List.mem_flatMap.mp h
    obtain ⟨q, _, heq⟩ := List.mem_filterMap.mp hmem
    split at heq
    · simp at heq
    · split at heq
      · simp at heq
      · exact ⟨c, q.1, q.2, _, (Option.some_inj.mp heq).symm⟩

/-- Filtering a concatenation of per-element contributions in which every
element other than `a` contributes nothing filtered-in reduces to `a`'s
contribution (`a` occurs once by nodup). -/
theorem filter_flatMap_eq_of_unique {α β : Type} (P : β → Bool) (F : α → List β)
    (l : List α) (a : α) (hnd : l.Nodup) (ha : a ∈ l)
    (h0 : ∀ b ∈ l, b ≠ a → (F b).filter P = []) :
    (l.flatMap F).filter P = (F a).filter P := by
  induction l with
  | nil => cases ha
  | cons b rest ih =>
    rw [List.flatMap_cons, List.filter_append]
    rcases List.mem_cons.mp ha with hab | harest
    · subst hab
      have hrest : (rest.flatMap F).filter P = [] := by
        rw [List.filter_eq_nil_iff]
        intro fd hfd
        obtain ⟨g, hg, hfdg⟩ := List.mem_flatMap.mp hfd
        have hgb : g ≠ a := fun hgb => (List.nodup_cons.mp hnd).1 (hgb ▸ hg)
        have := h0 g (List.mem_cons_of_mem a hg) hgb
        exact (List.filter_eq_nil_iff.mp this) fd hfdg
      rw [hrest, List.append_nil]
    · have hba : b ≠ a := by
        intro hba
        exact (List.nodup_cons.mp hnd).1 (hba ▸ harest)
      rw [h0 b (List.mem_cons_self b rest) hba, List.nil_append]
      exact ih (List.nodup_cons.mp hnd).2 harest
        (fun g hg hgne => h0 g (List.mem_cons_of_mem b hg) hgne)

end ReentrancyClaims

section C1Claims

open VulnDetect

/-- Parsed input for the C1 counterexample: one frame, one DELEGATECALL
row mapped to it, no nested children and no storage write at all. -/
def c1Parsed : ParsedData :=
  { callFrames := [{ id := 0, type := "CALL" }]
    stepToFrameId := [some 0]
    rows := [{ step := 1, op := "DELEGATECALL" }]
    sstores := [] }

/-- C1 counterexample: a frame whose only call is a DELEGATECALL, with no
nested children and no storage write after the call, yields no reentrancy
finding at all — the detector requires at least one post-call write before
rule R1 fires, so the claimed high-severity finding for the DELEGATECALL
variant of the write-free frame does not exist. -/
theorem c1_delegatecall_no_write_counterexample :
    (frameCalls c1Parsed none 0).map (fun c => c.op) = ["DELEGATECALL"] ∧
    frameStores c1Parsed none 0 = [] ∧
    c1Parsed.callFrames.map (fun f => f.children) = [[]] ∧
    detectReentrancyFrameAware c1Parsed none = [] := by decide

/-- C1 amended: for a frame whose collected call list is exactly one call
and which has no nested children — if the call is a plain CALL and no
same-frame storage write occurs after it, the frame-aware detector emits
no reentrancy finding for that frame; and if the call is a DELEGATECALL
and at least one same-frame storage write occurs after it, the detector
emits a high-severity reentrancy finding for the frame even though it has
no nested children. -/
theorem c1_single_call_frame_amended (parsed : ParsedData) (trace : Option TraceData)
    (f : VFrame) (c : CallInfo)
    (hmem : f ∈ parsed.callFrames)
    (hnodup : (parsed.callFrames.map (fun g => g.id)).Nodup)
    (hstf : parsed.stepToFrameId ≠ [])
    (hcalls : frameCalls parsed trace f.id = [c])
    (_hchildren : f.children = []) :
    (c.op = "CALL" → (∀ s ∈ frameStores parsed trace f.id, s.step ≤ c.step) →
      (detectReentrancyFrameAware parsed trace).filter
        (fun fd => decide (evidFrameId fd.evidence = some f.id)) = []) ∧
    (c.op = "DELEGATECALL" → (∃ s ∈ frameStores parsed trace f.id, c.step < s.step) →
      ∃ fd ∈ detectReentrancyFrameAware parsed trace,
        fd.rule = "ReentrancyHeuristicFrame" ∧ fd.severity = "high" ∧
        evidFrameId fd.evidence = some f.id) := by
  have hcalls' : mapGet (buildFrameMaps parsed trace).calls (some f.id) = [c] := hcalls
  have hne : ¬ (parsed.callFrames = [] ∨ parsed.stepToFrameId = []) := by
    push_neg
    exact ⟨List.ne_nil_of_mem hmem, hstf⟩
  have hdet : detectReentrancyFrameAware parsed trace =
      parsed.callFrames.flatMap (r1Frame (buildFrameMaps parsed trace)) ++
      parsed.callFrames.flatMap (r2Frame (buildFrameMaps parsed trace)) := by
    unfold detectReentrancyFrameAware
    rw [if_neg hne]
  have hsideNil : ∀ F : VFrame → List VFinding,
      (∀ g fd', fd' ∈ F g → evidFrameId fd'.evidence = some g.id) → F f = [] →
      (parsed.callFrames.flatMap F).filter
        (fun fd => decide (evidFrameId fd.evidence = some f.id)) = [] := by
    intro F hFid hFf
    rw [List.filter_eq_nil_iff]
    intro fd hfd
    obtain ⟨g, hg, hfdg⟩ := List.mem_flatMap.mp hfd
    simp only [decide_eq_true_eq]
    intro hEq
    have hid : g.id = f.id := Option.some_inj.mp ((hFid g fd hfdg).symm.trans hEq)
    have hgf : g = f := List.inj_on_of_nodup_map hnodup hg hmem hid
    rw [hgf, hFf] at hfdg
    cases hfdg
  constructor
  · intro _ hstores
    have hafterNil : (mapGet (buildFrameMaps parsed trace).stores (some f.id)).filter
        (fun s => decide (c.step < s.step)) = [] := by
      rw [List.filter_eq_nil_iff]
      intro s hs
      simp only [decide_eq_true_eq]
      exact Nat.not_lt.mpr (hstores s hs)
    have hr1f : r1Frame (buildFrameMaps parsed trace) f = [] := by
      simp only [r1Frame]
      rw [hcalls']
      by_cases hst : mapGet (buildFrameMaps parsed trace).stores (some f.id) = []
      · simp [hst]
      · rw [if_neg (by simp [hst])]
        simp only [List.filterMap_cons, List.filterMap_nil]
        rw [hafterNil]
        simp
    have hr2f : r2Frame (buildFrameMaps parsed trace) f = [] := by
      simp only [r2Frame]
      rw [hcalls']
      by_cases hlen : (mapGet (buildFrameMaps parsed trace).stores (some f.id)).length < 2
      · simp [hlen]
      · rw [if_neg (by simp [hlen])]
        simp only [List.flatMap_cons, List.flatMap_nil]
        rw [hafterNil]
        simp [slotCounts]
    rw [hdet, List.filter_append]
    rw [hsideNil _ (fun g fd' hfd' => by
        obtain ⟨c', after, rfl⟩ := mem_r1Frame _ g fd' hfd'
        rfl) hr1f,
      hsideNil _ (fun g fd' hfd' => by
        obtain ⟨c', slot, count, multis, rfl⟩ := mem_r2Frame _ g fd' hfd'
        rfl) hr2f]
    rfl
  · intro hop hex
    obtain ⟨s, hs, hlt⟩ := hex
    have hs' : s ∈ mapGet (buildFrameMaps parsed trace).stores (some f.id) := hs
    rw [hdet]
    refine ⟨mkR1Finding f c ((mapGet (buildFrameMaps parsed trace).stores
      (some f.id)).filter (fun s => decide (c.step < s.step))), ?_, rfl, rfl, rfl⟩
    apply List.mem_append_left
    apply List.mem_flatMap.mpr
    refine ⟨f, hmem, ?_⟩
    simp only [r1Frame]
    rw [hcalls']
    have hstne : ¬ mapGet (buildFrameMaps parsed trace).stores (some f.id) = [] := by
      intro hnil
      rw [hnil] at hs'
      cases hs'
    rw [if_neg (by simp [hstne])]
    apply List.mem_filterMap.mpr
    refine ⟨c, List.mem_cons_self c [], ?_⟩
    have hafterne : (mapGet (buildFrameMaps parsed trace).stores (some f.id)).filter
        (fun s => decide (c.step < s.step)) ≠ [] := by
      intro hnil
      have hmemf : s ∈ (mapGet (buildFrameMaps parsed trace).stores (some f.id)).filter
          (fun s => decide (c.step < s.step)) :=
        List.mem_filter.mpr ⟨hs', by simp [hlt]⟩
      rw [hnil] at hmemf
      cases hmemf
    simp [hop, hafterne]

end C1Claims

section C8Claims

open VulnDetect

/-- Parsed input for the C1 witness: one frame whose only call is a
DELEGATECALL followed by one same-frame storage write. -/
def c1wParsed : ParsedData :=
  { callFrames := [{ id := 0, type := "CALL" }]
    stepToFrameId := [some 0, some 0]
    rows := [{ step := 1, op := "DELEGATECALL" },
             { step := 2, op := "SSTORE", isStorage := true }]
    sstores := [{ step := 2, slot := "0x1", value := "0x5" }] }

/-- The frame of the C1 witness input. -/
def c1wFrame : VFrame := { id := 0, type := "CALL" }

/-- The collected call of the C1 witness input. -/
def c1wCall : CallInfo := { step := 1, op := "DELEGATECALL" }

/-- C1 witness: the amended theorem applied at the concrete DELEGATECALL
frame with one post-call write. -/
theorem c1_single_call_frame_amended_witness :
    (c1wFrame ∈ c1wParsed.callFrames ∧
      (c1wParsed.callFrames.map (fun g => g.id)).Nodup ∧
      c1wParsed.stepToFrameId ≠ [] ∧
      frameCalls c1wParsed none c1wFrame.id = [c1wCall] ∧
      c1wFrame.children = [] ∧ c1wCall.op = "DELEGATECALL" ∧
      (∃ s ∈ frameStores c1wParsed none c1wFrame.id, c1wCall.step < s.step)) ∧
    (∃ fd ∈ detectReentrancyFrameAware c1wParsed none,
      fd.rule = "ReentrancyHeuristicFrame" ∧ fd.severity = "high" ∧
      evidFrameId fd.evidence = some c1wFrame.id) :=
  ⟨by decide,
    (c1_single_call_frame_amended c1wParsed none c1wFrame c1wCall (by decide) (by decide)
      (by decide) (by decide) (by decide)).2 (by decide) (by decide)⟩

/-- The frame-aware branch of the reentrancy detector, unfolded. -/
theorem detectFrameAware_unfold (parsed : ParsedData) (trace : Option TraceData)
    (h1 : parsed.callFrames ≠ []) (h2 : parsed.stepToFrameId ≠ []) :
    detectReentrancyFrameAware parsed trace =
      parsed.callFrames.flatMap (r1Frame (buildFrameMaps parsed trace)) ++
      parsed.callFrames.flatMap (r2Frame (buildFrameMaps parsed trace)) := by
  unfold detectReentrancyFrameAware
  rw [if_neg (by push_neg; exact ⟨h1, h2⟩)]

/-- C8: a frame whose collected call list is exactly one external call at
step `k`, with exactly two post-call writes hitting the same slot at steps
`k+1` and `k+3`, receives exactly one multiple-writes (race) finding for
that slot — the filtered detector output is one medium finding, not one
per write. -/
theorem c8_race_one_per_slot (parsed : ParsedData) (trace : Option TraceData)
    (f : VFrame) (c : CallInfo) (s1 s2 : StoreInfo)
    (hmem : f ∈ parsed.callFrames)
    (hnodup : (parsed.callFrames.map (fun g => g.id)).Nodup)
    (hstf : parsed.stepToFrameId ≠ [])
    (hcalls : frameCalls parsed trace f.id = [c])
    (hext : (isPrecompile c.toAddr || isSelfCall c.toAddr f.toAddr) = false)
    (hafter : (frameStores parsed trace f.id).filter
      (fun s => decide (c.step < s.step)) = [s1, s2])
    (hslot : s2.slot = s1.slot)
    (_hs1 : s1.step = c.step + 1) (_hs2 : s2.step = c.step + 3) :
    (detectReentrancyFrameAware parsed trace).filter
        (fun fd => decide (raceKey fd.evidence = some (f.id, s1.slot))) =
      [mkR2Finding f c s1.slot 2 [s1, s2]] ∧
    (mkR2Finding f c s1.slot 2 [s1, s2]).severity = "medium" := by
  have hcalls' : mapGet (buildFrameMaps parsed trace).calls (some f.id) = [c] := hcalls
  have hafter' : (mapGet (buildFrameMaps parsed trace).stores (some f.id)).filter
      (fun s => decide (c.step < s.step)) = [s1, s2] := hafter
  have hdet := detectFrameAware_unfold parsed trace (List.ne_nil_of_mem hmem) hstf
  have hr1nil : (parsed.callFrames.flatMap (r1Frame (buildFrameMaps parsed trace))).filter
      (fun fd => decide (raceKey fd.evidence = some (f.id, s1.slot))) = [] := by
    rw [List.filter_eq_nil_iff]
    intro fd hfd
    obtain ⟨g, hg, hfdg⟩ := List.mem_flatMap.mp hfd
    obtain ⟨c', after, rfl⟩ := mem_r1Frame _ g fd hfdg
    simp [mkR1Finding, raceKey]
  have hr2other : ∀ g ∈ parsed.callFrames, g ≠ f →
      (r2Frame (buildFrameMaps parsed trace) g).filter
        (fun fd => decide (raceKey fd.evidence = some (f.id, s1.slot))) = [] := by
    intro g hg hgf
    rw [List.filter_eq_nil_iff]
    intro fd hfd
    obtain ⟨c', slot, count, multis, rfl⟩ := mem_r2Frame _ g fd hfd
    simp only [decide_eq_true_eq]
    intro hEq
    have hpair : g.id = f.id := by
      have : (some (g.id, slot) : Option (Nat × String)) = some (f.id, s1.slot) := by
        simpa [mkR2Finding, raceKey] using hEq
      exact congrArg Prod.fst (Option.some_inj.mp this)
    exact hgf (List.inj_on_of_nodup_map hnodup hg hmem hpair)
  have hlen2 : ¬ (mapGet (buildFrameMaps parsed trace).stores (some f.id)).length < 2 := by
    have hle := List.length_filter_le (fun s => decide (c.step < s.step))
      (mapGet (buildFrameMaps parsed trace).stores (some f.id))
    rw [hafter'] at hle
    simp at hle
    omega
  have hr2f : r2Frame (buildFrameMaps parsed trace) f =
      [mkR2Finding f c s1.slot 2 [s1, s2]] := by
    simp only [r2Frame]
    rw [hcalls', if_neg (by simp [hlen2])]
    simp only [List.flatMap_cons, List.flatMap_nil]
    rw [hafter']
    have hsc : slotCounts [s1, s2] = [(s1.slot, 2)] := by
      simp [slotCounts, hslot]
    rw [hsc]
    simp [hext, hslot]
  have hmain := filter_flatMap_eq_of_unique
    (fun fd => decide (raceKey fd.evidence = some (f.id, s1.slot)))
    (r2Frame (buildFrameMaps parsed trace)) parsed.callFrames f hnodup.of_map hmem hr2other
  rw [hdet, List.filter_append, hr1nil, List.nil_append, hmain, hr2f]
  exact ⟨by simp [mkR2Finding, raceKey], rfl⟩

/-- Parsed input for the C8 witness: one frame, one CALL at step 1, two
writes to slot `0x0` at steps 2 and 4. -/
def c8wParsed : ParsedData :=
  { callFrames := [{ id := 0, type := "CALL" }]
    stepToFrameId := [some 0, some 0, some 0, some 0]
    rows := [{ step := 1, op := "CALL" },
             { step := 2, op := "SSTORE", isStorage := true },
             { step := 3, op := "PUSH1" },
             { step := 4, op := "SSTORE", isStorage := true }]
    sstores := [{ step := 2, slot := "0x0", value := "0x7" },
                { step := 4, slot := "0x0", value := "0x9" }] }

/-- The frame of the C8 witness input. -/
def c8wFrame : VFrame := { id := 0, type := "CALL" }

/-- The collected call of the C8 witness input. -/
def c8wCall : CallInfo := { step := 1, op := "CALL" }

/-- The first collected post-call write of the C8 witness input. -/
def c8wS1 : StoreInfo := { step := 2, slot := "0x0", value := "0x7" }

/-- The second collected post-call write of the C8 witness input. -/
def c8wS2 : StoreInfo := { step := 4, slot := "0x0", value := "0x9" }

/-- C8 witness: the theorem applied at the concrete two-writes-one-slot
frame, yielding exactly one medium race finding for the slot. -/
theorem c8_race_one_per_slot_witness :
    (c8wFrame ∈ c8wParsed.callFrames ∧
      (c8wParsed.callFrames.map (fun g => g.id)).Nodup ∧
      c8wParsed.stepToFrameId ≠ [] ∧
      frameCalls c8wParsed none c8wFrame.id = [c8wCall] ∧
      (isPrecompile c8wCall.toAddr || isSelfCall c8wCall.toAddr c8wFrame.toAddr) = false ∧
      (frameStores c8wParsed none c8wFrame.id).filter
        (fun s => decide (c8wCall.step < s.step)) = [c8wS1, c8wS2] ∧
      c8wS2.slot = c8wS1.slot ∧ c8wS1.step = c8wCall.step + 1 ∧
      c8wS2.step = c8wCall.step + 3) ∧
    ((detectReentrancyFrameAware c8wParsed none).filter
        (fun fd => decide (raceKey fd.evidence = some (c8wFrame.id, c8wS1.slot))) =
      [mkR2Finding c8wFrame c8wCall c8wS1.slot 2 [c8wS1, c8wS2]] ∧
    (mkR2Finding c8wFrame c8wCall c8wS1.slot 2 [c8wS1, c8wS2]).severity = "medium") :=
  ⟨by decide,
    c8_race_one_per_slot c8wParsed none c8wFrame c8wCall c8wS1 c8wS2 (by decide) (by decide)
      (by decide) (by decide) (by decide) (by decide) (by decide) (by decide) (by decide)⟩

end C8Claims

section C7Claims

open VulnDetect

/-- Does a validation-class opcode sit at row index `j`? -/
def validationAt (rows : List Row) (j : Nat) : Bool :=
  match rows[j]? with
  | some r => isCheckOp r.op
  | none => false

/-- A validation-class opcode occurs strictly within 20 rows after the
call row at `idx`. -/
def specWindowHit (rows : List Row) (idx : Nat) : Prop :=
  ∃ j ∈ Finset.Ico (idx + 1) (idx + 20), validationAt rows j = true

instance specWindowHitDec (rows : List Row) (idx : Nat) : Decidable (specWindowHit rows idx) := by
  unfold specWindowHit
  infer_instance

/-- The unchecked-call rule as the amended claim words it: a call row at
index `idx` yields one medium finding exactly when no validation-class
opcode occurs at any of the 19 following rows (indices `idx+1` through
`idx+19`, i.e. strictly within 20 of the call). -/
def specUncheckedCalls (rows : List Row) : List VFinding :=
  rows.enum.filterMap fun p =>
    if p.2.op ∈ CALL_OPS then
      if specWindowHit rows p.1 then none
      else some (mkUncheckedFinding p.2)
    else none

/-- The detector's lookahead loop finds a validation opcode exactly when
one occurs at a row index in `[idx+1, idx+20)`. -/
theorem foundCheck_iff (rows : List Row) (idx : Nat) :
    ((List.range' (idx + 1) (min (idx + 20) rows.length - (idx + 1))).any fun i =>
      match rows[i]? with
      | some r => isCheckOp r.op
      | none => false) = true ↔
    specWindowHit rows idx := by
  unfold specWindowHit
  rw [List.any_eq_true]
  constructor
  · rintro ⟨i, hi, hp⟩
    rw [List.mem_range'_1] at hi
    exact ⟨i, Finset.mem_Ico.mpr ⟨hi.1, by omega⟩, hp⟩
  · rintro ⟨j, hj, hp⟩
    rw [Finset.mem_Ico] at hj
    have hjlen : j < rows.length := by
      by_contra hge
      push_neg at hge
      have hnone : rows[j]? = none := List.getElem?_eq_none hge
      unfold validationAt at hp
      rw [hnone] at hp
      exact absurd hp (by decide)
    exact ⟨j, List.mem_range'_1.mpr ⟨hj.1, by omega⟩, hp⟩

/-- C7 amended: the unchecked-call detector emits one medium-severity
finding for an external-call row exactly when no validation-class opcode
(ISZERO, REVERT, JUMPI, REQUIRE) occurs among the 19 following rows: the
detector equals the rule worded with that window. -/
theorem c7_unchecked_window_amended (rows : List Row) :
    detectUncheckedCalls rows = specUncheckedCalls rows := by
  unfold detectUncheckedCalls specUncheckedCalls
  apply List.filterMap_congr
  intro p _
  by_cases hcall : p.2.op ∈ CALL_OPS
  · rw [if_pos hcall, if_pos hcall]
    by_cases hex : specWindowHit rows p.1
    · rw [if_pos ((foundCheck_iff rows p.1).mpr hex), if_pos hex]
    · have hfc : ((List.range' (p.1 + 1) (min (p.1 + 20) rows.length - (p.1 + 1))).any fun i =>
          match rows[i]? with
          | some r => isCheckOp r.op
          | none => false) = false := by
        cases hb : (List.range' (p.1 + 1) (min (p.1 + 20) rows.length - (p.1 + 1))).any fun i =>
            match rows[i]? with
            | some r => isCheckOp r.op
            | none => false
        · rfl
        · exact absurd ((foundCheck_iff rows p.1).mp hb) hex
      rw [if_neg (by simp [hfc]), if_neg hex]
  · rw [if_neg hcall, if_neg hcall]

/-- Rows for the C7 counterexample: a CALL, 19 PUSH1 fillers, then a JUMPI
at the 20th following row. -/
def c7Rows : List Row :=
  ({ step := 1, op := "CALL" } : Row) ::
    (((List.range 19).map fun i => ({ step := i + 2, op := "PUSH1" } : Row)) ++
      [({ step := 21, op := "JUMPI" } : Row)])

/-- C7 counterexample: a validation-class opcode (JUMPI) occurs exactly 20
rows after the call — inside the claimed 20-step lookahead window — yet
the detector still emits the unchecked-call finding, because its loop
`i < idx + 20` starting at `idx + 1` scans only the 19 following rows. -/
theorem c7_window_counterexample :
    (c7Rows[0]?).map (fun r => r.op) = some "CALL" ∧
    (c7Rows[20]?).map (fun r => isCheckOp r.op) = some true ∧
    (detectUncheckedCalls c7Rows).map (fun f => (f.rule, f.severity)) =
      [("unchecked_call", "medium")] := by decide

end C7Claims

section C6Claims

open VulnDetect

/-- The decoded panic code of a primary-rule finding's evidence, `none`
for any other evidence shape. -/
def evidPanicCode : VEvidence → Option (Option Nat)
  | .panic _ _ code _ _ => some code
  | _ => none

/-- Rows for the C6 failing input: an ADD immediately followed by a
REVERT. -/
def c6Rows : List Row :=
  [{ step := 1, op := "ADD" }, { step := 2, op := "REVERT" }]

/-- Step-to-frame map for the C6 failing input. -/
def c6Stf : List (Option Nat) := [some 0, some 0]

/-- Raw trace for the C6 failing input: the REVERT's stack carries offset
0 and size 0x24, and its memory holds a `Panic(0x11)` payload (selector
`4e487b71`, then the 32-byte code 0x11). -/
def c6Trace : TraceData :=
  { structLogs :=
      [{},
       { stack := ["0x24", "0x0"]
         memory :=
           ["4e487b7100000000000000000000000000000000000000000000000000000000",
            "0000001100000000000000000000000000000000000000000000000000000000"] }] }

/-- C6 (code bug witnessed): the trace decodes an arithmetic-panic
signature (the primary rule emits its single high finding, with the panic
evidence showing selector `0x4e487b71` and code 0x11), yet the fallback
heuristic also fires a medium finding for the ADD-before-REVERT pattern —
the source's `return` only leaves the `forEach` callback, so the fallback
pass is not skipped even though a signature decoded. -/
theorem c6_fallback_not_skipped_code_bug :
    (detectOverflow c6Rows c6Stf (some c6Trace)).map
        (fun f => (f.rule, f.severity, f.tags)) =
      [("ArithmeticOverflowUnderflow", "high", ["dynamic", "overflow", "panic-detected"]),
       ("ArithmeticOverflowUnderflow", "medium", ["dynamic", "overflow", "heuristic"])] ∧
    (detectOverflow c6Rows c6Stf (some c6Trace)).map (fun f => evidPanicCode f.evidence) =
      [some (some 17), none] := by decide

end C6Claims
